import Mathlib

/-!
# MAX77843 RGB LED driver (`drivers/leds/leds-max77843-rgb.c`)

A shallow embedding of the pattern-and-policy part of the driver: the blink and
ramp quantizers, the ratio scaling of `max77843_rgb_set_state`, the derating of
`store_max77843_rgb_blink`, the suppression check `check_restrictions`, and the
register writes they issue.

Machine integers are natural numbers; `unsigned int` arithmetic is reduced
modulo `2 ^ 32` where a wrap is possible, a C `int` is carried as its 32-bit
pattern, and a `u8` is reduced modulo `256`.
-/

namespace Max77843

/-! ## Machine integers -/

/-- Modulus of `unsigned int` arithmetic. -/
def U32 : Nat := 4294967296

/-- Value of a 32-bit pattern read as a C `int` (two's complement). -/
def toInt32 (n : Nat) : Int :=
  if n % U32 < 2147483648 then ((n % U32 : Nat) : Int) else ((n % U32 : Nat) : Int) - 4294967296

/-- The 32-bit pattern of an integer (conversion to `unsigned int`). -/
def toU32 (i : Int) : Nat := (i % 4294967296).toNat

/-- C division of two `int` patterns: the quotient truncates toward zero. -/
def sdiv32 (a b : Nat) : Nat := toU32 (Int.tdiv (toInt32 a) (toInt32 b))

/-! ## Constants of the source -/

/-- Register `MAX77843_RGBLED_REG_LEDEN`. -/
def MAX77843_RGBLED_REG_LEDEN : Nat := 0x30
/-- Register `MAX77843_RGBLED_REG_LED0BRT`; channel `n` is at `LED0BRT + n`. -/
def MAX77843_RGBLED_REG_LED0BRT : Nat := 0x31
/-- Register `MAX77843_RGBLED_REG_LEDRMP`. -/
def MAX77843_RGBLED_REG_LEDRMP : Nat := 0x36
/-- Register `MAX77843_RGBLED_REG_LEDBLNK`. -/
def MAX77843_RGBLED_REG_LEDBLNK : Nat := 0x38

def LED_R_MASK : Nat := 0x00FF0000
def LED_G_MASK : Nat := 0x0000FF00
def LED_B_MASK : Nat := 0x000000FF
def LED_MAX_CURRENT : Nat := 0xFF

def LED_OFF : Nat := 0
def LED_DISABLE : Nat := 0
def LED_ALWAYS_ON : Nat := 1
def LED_BLINK : Nat := 2

/-- Members of `enum max77843_led_color`: the index of a channel in `led[4]`. -/
def WHITE : Nat := 0
def RED : Nat := 1
def GREEN : Nat := 2
def BLUE : Nat := 3

/-- Members of `enum max77843_led_pattern`. -/
def PATTERN_OFF : Nat := 0
def CHARGING : Nat := 1
def CHARGING_ERR : Nat := 2
def MISSED_NOTI : Nat := 3
def LOW_BATTERY : Nat := 4
def FULLY_CHARGED : Nat := 5
def POWERING : Nat := 6

/-! ## Timing quantizer -/

/-- Macro `LEDBLNK_ON(time)` on an `unsigned int` argument. Each subtraction is
guarded by the comparison before it, so no operation wraps. -/
def LEDBLNK_ON (time : Nat) : Nat :=
  if time < 100 then 0
  else if time < 500 then time / 100 - 1
  else if time < 3250 then (time - 500) / 250 + 4
  else 15

/-- Macro `LEDBLNK_OFF(time)` on an `unsigned int` argument. -/
def LEDBLNK_OFF (time : Nat) : Nat :=
  if time < 1 then 0x00
  else if time < 500 then 0x01
  else if time < 5000 then time / 500
  else if time < 8000 then (time - 5000) / 1000 + 10
  else if time < 12000 then (time - 8000) / 2000 + 13
  else 15

/-- One arm of `max77843_rgb_ramp`: the code computed from the `int` argument
`ramp` (a 32-bit pattern) and the `unsigned int` threshold `fade`
(`led_fade_time_up` or `led_fade_time_down`). The comparison and the
else-branch arithmetic are unsigned; `/= 100` divides the `int`. -/
def ramp_code (ramp fade : Nat) : Nat :=
  if ramp ≤ fade then sdiv32 ramp 100
  else sdiv32 (((ramp - fade) * 2 + fade) % U32) 100

/-- The `int value` that `max77843_rgb_ramp` builds:
`(ramp_down) | (ramp_up << 4)` after both arms. -/
def ramp_value (ramp_up ramp_down fade_up fade_down : Nat) : Nat :=
  ramp_code ramp_down fade_down ||| ((ramp_code ramp_up fade_up <<< 4) % U32)

/-- The `int value` that `max77843_rgb_blink` builds:
`(LEDBLNK_ON(delay_on) << 4) | LEDBLNK_OFF(delay_off)`. -/
def blink_value (delay_on delay_off : Nat) : Nat :=
  ((LEDBLNK_ON delay_on <<< 4) % U32) ||| LEDBLNK_OFF delay_off

/-! ## Driver state -/

/-- The globals of the driver, the register file of the chip, and the outcome of
each register access (the transport may fail an access). -/
structure State where
  /-- Register file, by address. -/
  regs : Nat → Nat
  /-- Whether the `k`-th register access of the run fails. -/
  io_fail : Nat → Bool
  /-- Number of register accesses issued so far. -/
  io_count : Nat
  led_dynamic_current : Nat
  normal_powermode_current : Nat
  low_powermode_current : Nat
  device_type : Nat
  brightness_ratio_r : Nat
  brightness_ratio_g : Nat
  brightness_ratio_b : Nat
  led_lowpower_mode : Nat
  octa_color : Nat
  led_enable_fade : Nat
  led_fade_time_up : Nat
  led_fade_time_down : Nat
  led_always_disable : Nat
  led_debug_enable : Nat
  led_block_leds_time_start : Int
  led_block_leds_time_stop : Int
  /-- The recorded device handle `GBLdev`; `none` is `NULL`. -/
  GBLdev : Option Unit
  is_work_active : Bool
  /-- Whether `check_led_time` is queued by `schedule_delayed_work_on`. -/
  work_pending : Bool
  delay_on_times_ms : Nat
  delay_off_times_ms : Nat

/-- The static initializers of the source, over a register file `regs` and a
transport `io_fail`. -/
def State.init (regs : Nat → Nat) (io_fail : Nat → Bool) : State where
  regs := regs
  io_fail := io_fail
  io_count := 0
  led_dynamic_current := 0x14
  normal_powermode_current := 0x14
  low_powermode_current := 0x05
  device_type := 0
  brightness_ratio_r := 100
  brightness_ratio_g := 100
  brightness_ratio_b := 100
  led_lowpower_mode := 0
  octa_color := 0
  led_enable_fade := 1
  led_fade_time_up := 800
  led_fade_time_down := 800
  led_always_disable := 0
  led_debug_enable := 0
  led_block_leds_time_start := -1
  led_block_leds_time_stop := -1
  GBLdev := none
  is_work_active := false
  work_pending := false
  delay_on_times_ms := 0
  delay_off_times_ms := 0

/-- What `do_gettimeofday`, `time_to_tm` and `sys_tz` supply to
`check_restrictions`. -/
structure Clock where
  tm_hour : Int
  tz_minuteswest : Int

/-! ## Transport -/

/-- Modelled from the spec: `write_register(addr, value)` of the transport
collaborator (`max77843_write_reg` of the MFD core, which is not in this file):
a synchronous write of one byte that either completes or fails. The second
component is `IS_ERR_VALUE(ret)`. -/
def max77843_write_reg (s : State) (reg value : Nat) : State × Bool :=
  if s.io_fail s.io_count then
    ({ s with io_count := s.io_count + 1 }, true)
  else
    ({ s with io_count := s.io_count + 1,
              regs := Function.update s.regs reg (value % 256) }, false)

/-- The byte that a read-modify-write restricted to `mask` stores: the bits of
`value` inside the mask, the bits of `old` outside it (`u8` operands). -/
def update_bits (old value mask : Nat) : Nat :=
  ((value % 256) &&& (mask % 256)) ||| ((old % 256) &&& (255 ^^^ (mask % 256)))

/-- Modelled from the spec: `update_register(addr, value, mask)` of the transport
collaborator (`max77843_update_reg` of the MFD core, which is not in this file):
a read-modify-write restricted to the bits of `mask`, on bytes. -/
def max77843_update_reg (s : State) (reg value mask : Nat) : State × Bool :=
  if s.io_fail s.io_count then
    ({ s with io_count := s.io_count + 1 }, true)
  else
    ({ s with io_count := s.io_count + 1,
              regs := Function.update s.regs reg (update_bits (s.regs reg) value mask) }, false)

/-! ## Channel primitives -/

/-- Function `max77843_rgb_number`: the index of `led_cdev` in `led[4]`, or
`-ENODEV` (here `none`). A class device is named by its index. -/
def max77843_rgb_number (led_cdev : Nat) : Option Nat :=
  if led_cdev < 4 then some led_cdev else none

/-- Function `max77843_rgb_set`. A failed access is logged and ends the call. -/
def max77843_rgb_set (s : State) (led_cdev brightness : Nat) : State :=
  match max77843_rgb_number led_cdev with
  | none => s
  | some n =>
    if brightness = LED_OFF then
      (max77843_update_reg s MAX77843_RGBLED_REG_LEDEN 0 (3 <<< (2 * n))).1
    else
      let w := max77843_write_reg s (MAX77843_RGBLED_REG_LED0BRT + n) brightness
      if w.2 then w.1
      else (max77843_update_reg w.1 MAX77843_RGBLED_REG_LEDEN 0x55 (3 <<< (2 * n))).1

/-- The ratio scaling of `max77843_rgb_set_state` (the block guarded by
`brightness != 0`): `unsigned int` multiplication and division by the ratio of
channel `n`, then the replacement of a zero quotient by 1. -/
def scale_brightness (s : State) (n brightness : Nat) : Nat :=
  if brightness ≠ 0 then
    let b :=
      if n = RED then brightness * s.brightness_ratio_r % U32 / 100
      else if n = GREEN then brightness * s.brightness_ratio_g % U32 / 100
      else if n = BLUE then brightness * s.brightness_ratio_b % U32 / 100
      else brightness
    if b = 0 then 1 else b
  else brightness

/-- Function `max77843_rgb_set_state`. The result of `max77843_rgb_set` is not
examined (it returns `void`), so the final update of `LEDEN` is always issued. -/
def max77843_rgb_set_state (s : State) (led_cdev brightness led_state : Nat) : State :=
  match max77843_rgb_number led_cdev with
  | none => s
  | some n =>
    let s1 := max77843_rgb_set s led_cdev (scale_brightness s n brightness)
    (max77843_update_reg s1 MAX77843_RGBLED_REG_LEDEN
      ((led_state <<< (2 * n)) % U32) (3 <<< (2 * n))).1

/-- Function `max77843_rgb_ramp`; the second component is the return value
(`0` or `-ENODEV`). -/
def max77843_rgb_ramp (s : State) (ramp_up ramp_down : Nat) : State × Int :=
  let w := max77843_write_reg s MAX77843_RGBLED_REG_LEDRMP
    (ramp_value ramp_up ramp_down s.led_fade_time_up s.led_fade_time_down)
  if w.2 then (w.1, -19) else (w.1, 0)

/-- Function `max77843_rgb_blink`; the second component is the return value
(`0` or `-EINVAL`). -/
def max77843_rgb_blink (s : State) (delay_on delay_off : Nat) : State × Int :=
  let w := max77843_write_reg s MAX77843_RGBLED_REG_LEDBLNK (blink_value delay_on delay_off)
  if w.2 then (w.1, -22) else (w.1, 0)

/-- Function `max77843_rgb_reset`. Its argument is a device handle; reaching the
class devices through a `NULL` handle is a fault (`none`). -/
def max77843_rgb_reset (dev : Option Unit) (s : State) : Option State :=
  match dev with
  | none => none
  | some _ =>
    let s1 := max77843_rgb_set_state s RED LED_OFF LED_DISABLE
    let s2 := max77843_rgb_set_state s1 GREEN LED_OFF LED_DISABLE
    let s3 := max77843_rgb_set_state s2 BLUE LED_OFF LED_DISABLE
    some (max77843_rgb_ramp s3 0 0).1

/-! ## Suppression policy -/

/-- The local hour that `check_restrictions` derives from the clock:
`tm_hour + ((tz_minuteswest / 60) * -1)`, folded once into `0..23`. -/
def curhour (now : Clock) : Int :=
  let h := now.tm_hour + (Int.tdiv now.tz_minuteswest 60) * (-1)
  let h := if h < 0 then 24 + h else h
  if h > 23 then h - 24 else h

/-- The verdict of the time-window test of `check_restrictions` for the hour
`hour`: `false` is blocked. -/
def window_allows (start stop hour : Int) : Bool :=
  if start > stop then
    if hour ≥ start ∨ hour < stop then false else true
  else
    if hour ≥ start ∧ hour < stop then false else true

/-- Function `check_restrictions`: the verdict (`true` is allowed, `false` is
blocked) and the state after the reset it may perform; `none` is the fault of
resetting through a `NULL` handle. -/
def check_restrictions (now : Clock) (s : State) : Option (Bool × State) :=
  if s.led_always_disable ≠ 0 then
    (max77843_rgb_reset s.GBLdev s).map (fun t => (false, t))
  else if s.led_block_leds_time_start ≠ -1 ∧ s.led_block_leds_time_stop ≠ -1 then
    let ret := window_allows s.led_block_leds_time_start s.led_block_leds_time_stop (curhour now)
    if ret = false ∧ s.GBLdev ≠ none then
      (max77843_rgb_reset s.GBLdev s).map (fun t => (ret, t))
    else some (ret, s)
  else some (true, s)

/-! ## Pattern dispatcher -/

/-- The `switch (mode)` of `store_max77843_rgb_pattern`. The return values of
`max77843_rgb_ramp` and `max77843_rgb_blink` are not examined. -/
def pattern_switch (s : State) (mode : Nat) : State :=
  if mode = CHARGING then
    max77843_rgb_set_state s RED s.led_dynamic_current LED_ALWAYS_ON
  else if mode = CHARGING_ERR then
    let s1 := (max77843_rgb_blink s 500 500).1
    max77843_rgb_set_state s1 RED s1.led_dynamic_current LED_BLINK
  else if mode = MISSED_NOTI then
    let s2 :=
      if s.led_enable_fade ≠ 0 then
        let s1 := (max77843_rgb_ramp s s.led_fade_time_up s.led_fade_time_down).1
        (max77843_rgb_blink s1 s1.led_fade_time_up 5000).1
      else (max77843_rgb_blink s 500 5000).1
    max77843_rgb_set_state s2 BLUE s2.led_dynamic_current LED_BLINK
  else if mode = LOW_BATTERY then
    let s2 :=
      if s.led_enable_fade ≠ 0 then
        let s1 := (max77843_rgb_ramp s s.led_fade_time_up s.led_fade_time_down).1
        (max77843_rgb_blink s1 s1.led_fade_time_up 5000).1
      else (max77843_rgb_blink s 500 5000).1
    max77843_rgb_set_state s2 RED s2.led_dynamic_current LED_BLINK
  else if mode = FULLY_CHARGED then
    max77843_rgb_set_state s GREEN s.led_dynamic_current LED_ALWAYS_ON
  else if mode = POWERING then
    let s1 := (max77843_rgb_ramp s 800 800).1
    let s2 := (max77843_rgb_blink s1 200 200).1
    let s3 := max77843_rgb_set_state s2 BLUE s2.led_dynamic_current LED_ALWAYS_ON
    max77843_rgb_set_state s3 GREEN s3.led_dynamic_current LED_BLINK
  else s

/-- Function `store_max77843_rgb_pattern` on a successfully scanned `mode`
(one decimal digit). The handle `dev` of a sysfs store is never `NULL`. -/
def store_max77843_rgb_pattern (now : Clock) (s : State) (mode : Nat) : Option State :=
  let s0 := { s with GBLdev := some () }
  match max77843_rgb_reset (some ()) s0 with
  | none => none
  | some s1 =>
    if mode = PATTERN_OFF then some s1
    else
      match check_restrictions now s1 with
      | none => none
      | some (false, s2) => some s2
      | some (true, s2) =>
        let s3 := { s2 with led_dynamic_current :=
          if s2.led_lowpower_mode = 1 then s2.low_powermode_current
          else s2.normal_powermode_current }
        some (pattern_switch s3 mode)

/-! ## Raw blink and derating -/

/-- The current limiting of one 8-bit component in `store_max77843_rgb_blink`:
`(c * led_dynamic_current) / LED_MAX_CURRENT` stored in a `u8`, floored to 1. -/
def limit_current (c current : Nat) : Nat :=
  if c ≠ 0 then
    let v := (c * current / LED_MAX_CURRENT) % 256
    if v = 0 then 1 else v
  else c

/-- The three `led_total_br +=` statements: the ratio-weighted total. -/
def led_total_br (s : State) (r g b : Nat) : Nat :=
  let t := (0 + r * s.brightness_ratio_r % U32 / 100) % U32
  let t := (t + g * s.brightness_ratio_g % U32 / 100) % U32
  (t + b * s.brightness_ratio_b % U32 / 100) % U32

/-- The `if / else if / else if` chain that assigns `led_max_br` (initially 0)
from `normal_powermode_current` and the largest ratio. -/
def led_max_br (s : State) : Nat :=
  if s.brightness_ratio_r ≥ s.brightness_ratio_g ∧
      s.brightness_ratio_r ≥ s.brightness_ratio_b then
    s.normal_powermode_current * s.brightness_ratio_r % U32 / 100
  else if s.brightness_ratio_g ≥ s.brightness_ratio_r ∧
      s.brightness_ratio_g ≥ s.brightness_ratio_b then
    s.normal_powermode_current * s.brightness_ratio_g % U32 / 100
  else if s.brightness_ratio_b ≥ s.brightness_ratio_r ∧
      s.brightness_ratio_b ≥ s.brightness_ratio_g then
    s.normal_powermode_current * s.brightness_ratio_b % U32 / 100
  else 0

/-- One plain rescaling statement of the derating:
`c = c * led_max_br / led_total_br` stored in a `u8`, floored to 1, for `c != 0`. -/
def derate_plain (c max_br total_br : Nat) : Nat :=
  if c ≠ 0 then
    let v := (c * max_br % U32 / total_br) % 256
    if v = 0 then 1 else v
  else c

/-- One rescaling statement of the workaround branch (Red and Green):
`c = c * led_max_br / led_total_br * 8 / 10` stored in a `u8`, floored to 1. -/
def derate_workaround (c max_br total_br : Nat) : Nat :=
  if c ≠ 0 then
    let v := (c * max_br % U32 / total_br * 8 % U32 / 10) % 256
    if v = 0 then 1 else v
  else c

/-- The derating step of `store_max77843_rgb_blink`: both branches of
`device_type == 1 && octa_color == 1`, each guarded by
`led_total_br > led_max_br`. -/
def derate (s : State) (r g b : Nat) : Nat × Nat × Nat :=
  let total := led_total_br s r g b
  let max_br := led_max_br s
  if s.device_type = 1 ∧ s.octa_color = 1 then
    if total > max_br then
      (derate_workaround r max_br total, derate_workaround g max_br total,
        derate_plain b max_br total)
    else (r, g, b)
  else
    if total > max_br then
      (derate_plain r max_br total, derate_plain g max_br total,
        derate_plain b max_br total)
    else (r, g, b)

/-- The brightness triple that `store_max77843_rgb_blink` hands to
`max77843_rgb_set_state`: the components of `led_brightness`, limited to
`led_dynamic_current`, then derated. -/
def blink_brightness (s : State) (led_brightness : Nat) : Nat × Nat × Nat :=
  let r := ((led_brightness &&& LED_R_MASK) >>> 16) % 256
  let g := ((led_brightness &&& LED_G_MASK) >>> 8) % 256
  let b := (led_brightness &&& LED_B_MASK) % 256
  derate s (limit_current r s.led_dynamic_current)
    (limit_current g s.led_dynamic_current) (limit_current b s.led_dynamic_current)

/-- Function `store_max77843_rgb_blink` on the scanned values: `led_brightness`
is the pattern of the `int` read by `%8x`, the delays are the `int`s read by
`%5d` (0 when not scanned). It does not consult `check_restrictions`. -/
def store_max77843_rgb_blink (s : State) (led_brightness : Nat)
    (delay_on_time delay_off_time : Int) : Option State :=
  let s0 := { s with led_dynamic_current := s.normal_powermode_current }
  match max77843_rgb_reset (some ()) s0 with
  | none => none
  | some s1 =>
    let c := blink_brightness s1 led_brightness
    let s2 := if c.1 ≠ 0 then max77843_rgb_set_state s1 RED c.1 LED_BLINK else s1
    let s3 := if c.2.1 ≠ 0 then max77843_rgb_set_state s2 GREEN c.2.1 LED_BLINK else s2
    let s4 := if c.2.2 ≠ 0 then max77843_rgb_set_state s3 BLUE c.2.2 LED_BLINK else s3
    let s5 :=
      if s4.led_enable_fade ≠ 0 ∧ delay_on_time > 0 then
        (max77843_rgb_ramp s4 s4.led_fade_time_up s4.led_fade_time_down).1
      else s4
    some (max77843_rgb_blink s5 (toU32 delay_on_time) (toU32 delay_off_time)).1

/-- Division of `unsigned int` as the machine performs it: there is no result
when the divisor is 0. -/
def udiv (a b : Nat) : Option Nat := if b = 0 then none else some (a / b)

/-- The statement of `derate_plain` with its division by `led_total_br` made
fallible. -/
def derate_plain_checked (c max_br total_br : Nat) : Option Nat :=
  if c ≠ 0 then
    (udiv (c * max_br % U32) total_br).map
      (fun q => if q % 256 = 0 then 1 else q % 256)
  else some c

/-- The statement of `derate_workaround` with its division by `led_total_br`
made fallible. -/
def derate_workaround_checked (c max_br total_br : Nat) : Option Nat :=
  if c ≠ 0 then
    (udiv (c * max_br % U32) total_br).map
      (fun q => if (q * 8 % U32 / 10) % 256 = 0 then 1 else (q * 8 % U32 / 10) % 256)
  else some c

/-- The derating step with every division by `led_total_br` fallible: `none`
is a division by zero. -/
def derate_checked (s : State) (r g b : Nat) : Option (Nat × Nat × Nat) :=
  let total := led_total_br s r g b
  let max_br := led_max_br s
  if s.device_type = 1 ∧ s.octa_color = 1 then
    if total > max_br then
      (derate_workaround_checked r max_br total).bind (fun r1 =>
        (derate_workaround_checked g max_br total).bind (fun g1 =>
          (derate_plain_checked b max_br total).map (fun b1 => (r1, g1, b1))))
    else some (r, g, b)
  else
    if total > max_br then
      (derate_plain_checked r max_br total).bind (fun r1 =>
        (derate_plain_checked g max_br total).bind (fun g1 =>
          (derate_plain_checked b max_br total).map (fun b1 => (r1, g1, b1))))
    else some (r, g, b)

/-! ## Remaining store handlers

Each handler takes the value its scan produced (`none` when `kstrtou8`,
`kstrtouint` or `sscanf` converted nothing) and the byte count of the write; the
second component of the result is the value returned to the caller. -/

/-- Function `store_max77843_rgb_lowpower`; the argument is the `u8` of
`kstrtou8`. -/
def store_max77843_rgb_lowpower (s : State) (led_lowpower : Option Nat) (count : Nat) :
    State × Nat :=
  match led_lowpower with
  | none => (s, count)
  | some v => ({ s with led_lowpower_mode := v % 256 }, count)

/-- Function `store_max77843_rgb_brightness`; the argument is the `u8` of
`kstrtou8`. -/
def store_max77843_rgb_brightness (s : State) (brightness : Option Nat) (count : Nat) :
    State × Nat :=
  match brightness with
  | none => (s, count)
  | some v =>
    let b := if v % 256 > LED_MAX_CURRENT then LED_MAX_CURRENT else v % 256
    ({ s with led_lowpower_mode := 0, led_dynamic_current := b }, count)

/-- Function `store_led_r`; the argument is the `unsigned int` of `kstrtouint`. -/
def store_led_r (s : State) (brightness : Option Nat) (count : Nat) : State × Nat :=
  match brightness with
  | none => (s, count)
  | some v =>
    if v % U32 ≠ 0 then (max77843_rgb_set_state s RED (v % U32) LED_ALWAYS_ON, count)
    else (max77843_rgb_set_state s RED LED_OFF LED_DISABLE, count)

/-- Function `store_led_g`. -/
def store_led_g (s : State) (brightness : Option Nat) (count : Nat) : State × Nat :=
  match brightness with
  | none => (s, count)
  | some v =>
    if v % U32 ≠ 0 then (max77843_rgb_set_state s GREEN (v % U32) LED_ALWAYS_ON, count)
    else (max77843_rgb_set_state s GREEN LED_OFF LED_DISABLE, count)

/-- Function `store_led_b`. -/
def store_led_b (s : State) (brightness : Option Nat) (count : Nat) : State × Nat :=
  match brightness with
  | none => (s, count)
  | some v =>
    if v % U32 ≠ 0 then (max77843_rgb_set_state s BLUE (v % U32) LED_ALWAYS_ON, count)
    else (max77843_rgb_set_state s BLUE LED_OFF LED_DISABLE, count)

/-- Function `led_delay_on_store`. -/
def led_delay_on_store (s : State) (time : Option Nat) (count : Nat) : State × Nat :=
  match time with
  | none => (s, count)
  | some v => ({ s with delay_on_times_ms := v % U32 }, count)

/-- Function `led_delay_off_store`. -/
def led_delay_off_store (s : State) (time : Option Nat) (count : Nat) : State × Nat :=
  match time with
  | none => (s, count)
  | some v => ({ s with delay_off_times_ms := v % U32 }, count)

/-- Function `led_blink_store` of the class device `led_cdev`; the argument is
the `unsigned int` scanned by `%1d`. -/
def led_blink_store (s : State) (led_cdev : Nat) (blink_set : Option Nat) (count : Nat) :
    State × Nat :=
  match blink_set with
  | none => (s, count)
  | some v =>
    let s1 := if v = 0 then { s with delay_on_times_ms := LED_OFF, delay_off_times_ms := LED_OFF }
      else s
    let s2 := (max77843_rgb_blink s1 s1.delay_on_times_ms s1.delay_off_times_ms).1
    (max77843_rgb_set_state s2 led_cdev s2.led_dynamic_current LED_BLINK, count)

/-- Function `led_fade_store`; the argument is the `int` scanned by `%d`. -/
def led_fade_store (s : State) (enabled : Option Int) (count : Nat) : State × Nat :=
  match enabled with
  | none => (s, count)
  | some v =>
    if v = 0 ∨ v = 1 then ({ s with led_enable_fade := toU32 v }, count) else (s, count)

/-- Function `led_debug_enable_store`. -/
def led_debug_enable_store (s : State) (enabled : Option Int) (count : Nat) : State × Nat :=
  match enabled with
  | none => (s, count)
  | some v =>
    if v = 0 ∨ v = 1 then ({ s with led_debug_enable := toU32 v }, count) else (s, count)

/-- Function `led_fade_time_up_store`. -/
def led_fade_time_up_store (s : State) (val : Option Int) (count : Nat) : State × Nat :=
  match val with
  | none => (s, count)
  | some v =>
    if v ≥ 100 ∧ v ≤ 4000 then ({ s with led_fade_time_up := toU32 v }, count) else (s, count)

/-- Function `led_fade_time_down_store`. -/
def led_fade_time_down_store (s : State) (val : Option Int) (count : Nat) : State × Nat :=
  match val with
  | none => (s, count)
  | some v =>
    if v ≥ 100 ∧ v ≤ 4000 then ({ s with led_fade_time_down := toU32 v }, count) else (s, count)

/-- Function `led_always_disable_store`. -/
def led_always_disable_store (s : State) (val : Option Int) (count : Nat) : State × Nat :=
  match val with
  | none => (s, count)
  | some v =>
    if v = 0 ∨ v = 1 then ({ s with led_always_disable := toU32 v }, count) else (s, count)

/-- The arming logic shared verbatim by `led_block_leds_time_start_store` and
`led_block_leds_time_stop_store`, after the bound is stored:
`schedule_delayed_work_on` queues `check_led_time`. -/
def arm_check_led_time (s : State) : State :=
  if ¬ s.is_work_active = true ∧ s.led_block_leds_time_start ≠ -1 ∧
      s.led_block_leds_time_stop ≠ -1 then
    { s with is_work_active := true, work_pending := true }
  else if s.led_block_leds_time_start = -1 ∨ s.led_block_leds_time_stop = -1 then
    { s with is_work_active := false }
  else s

/-- Function `led_block_leds_time_start_store`. -/
def led_block_leds_time_start_store (s : State) (val : Option Int) (count : Nat) :
    State × Nat :=
  let s1 :=
    match val with
    | none => s
    | some v =>
      if v = -1 ∨ (v ≥ 0 ∧ v ≤ 23) then { s with led_block_leds_time_start := v } else s
  (arm_check_led_time s1, count)

/-- Function `led_block_leds_time_stop_store`. -/
def led_block_leds_time_stop_store (s : State) (val : Option Int) (count : Nat) :
    State × Nat :=
  let s1 :=
    match val with
    | none => s
    | some v =>
      if v = -1 ∨ (v ≥ 0 ∧ v ≤ 23) then { s with led_block_leds_time_stop := v } else s
  (arm_check_led_time s1, count)

/-- Function `check_led_timer`, the body of the delayed work `check_led_time`.
The work is no longer queued while it runs; `schedule_delayed_work_on` queues it
again. `none` is the fault of `check_restrictions`. -/
def check_led_timer (now : Clock) (s : State) : Option State :=
  match check_restrictions now { s with work_pending := false } with
  | none => none
  | some (_, s1) =>
    if s1.is_work_active = true ∧ s1.led_block_leds_time_start ≠ -1 ∧
        s1.led_block_leds_time_stop ≠ -1 then
      some { s1 with work_pending := true }
    else some s1

/-! ## Command surface -/

/-- The commands of the sysfs attribute files, each with the value its scan
produced. `SetPattern` and `SetRawBlink` carry successfully scanned values. -/
inductive Command where
  | SetPattern (mode : Nat)
  | SetRawBlink (led_brightness : Nat) (delay_on_time delay_off_time : Int)
  | SetLedR (brightness : Option Nat)
  | SetLedG (brightness : Option Nat)
  | SetLedB (brightness : Option Nat)
  | SetLowPowerMode (led_lowpower : Option Nat)
  | SetGlobalBrightnessCeiling (brightness : Option Nat)
  | SetDelayOn (time : Option Nat)
  | SetDelayOff (time : Option Nat)
  | SetBlink (led_cdev : Nat) (blink_set : Option Nat)
  | SetFadeEnabled (enabled : Option Int)
  | SetDebugEnable (enabled : Option Int)
  | SetFadeTimeUp (val : Option Int)
  | SetFadeTimeDown (val : Option Int)
  | SetAlwaysDisable (val : Option Int)
  | SetBlockStart (val : Option Int)
  | SetBlockStop (val : Option Int)

/-- The store handler that serves a command, at clock `now`, for a write of
`count` bytes. -/
def handle (now : Clock) (count : Nat) (s : State) : Command → Option State
  | .SetPattern mode => store_max77843_rgb_pattern now s mode
  | .SetRawBlink lb d_on d_off => store_max77843_rgb_blink s lb d_on d_off
  | .SetLedR v => some (store_led_r s v count).1
  | .SetLedG v => some (store_led_g s v count).1
  | .SetLedB v => some (store_led_b s v count).1
  | .SetLowPowerMode v => some (store_max77843_rgb_lowpower s v count).1
  | .SetGlobalBrightnessCeiling v => some (store_max77843_rgb_brightness s v count).1
  | .SetDelayOn v => some (led_delay_on_store s v count).1
  | .SetDelayOff v => some (led_delay_off_store s v count).1
  | .SetBlink led v => some (led_blink_store s led v count).1
  | .SetFadeEnabled v => some (led_fade_store s v count).1
  | .SetDebugEnable v => some (led_debug_enable_store s v count).1
  | .SetFadeTimeUp v => some (led_fade_time_up_store s v count).1
  | .SetFadeTimeDown v => some (led_fade_time_down_store s v count).1
  | .SetAlwaysDisable v => some (led_always_disable_store s v count).1
  | .SetBlockStart v => some (led_block_leds_time_start_store s v count).1
  | .SetBlockStop v => some (led_block_leds_time_stop_store s v count).1

/-- A sequence of commands, each handled to completion at its own clock and
with its own byte count, before the next one. -/
def run (s : State) : List (Clock × Nat × Command) → Option State
  | [] => some s
  | (now, count, c) :: rest =>
    match handle now count s c with
    | none => none
    | some t => run t rest

/-- The well-formedness of the fade and suppression configuration. -/
def config_wf (s : State) : Prop :=
  (100 ≤ s.led_fade_time_up ∧ s.led_fade_time_up ≤ 4000) ∧
  (100 ≤ s.led_fade_time_down ∧ s.led_fade_time_down ≤ 4000) ∧
  (s.led_enable_fade = 0 ∨ s.led_enable_fade = 1) ∧
  (s.led_always_disable = 0 ∨ s.led_always_disable = 1) ∧
  (s.led_block_leds_time_start = -1 ∨
    (0 ≤ s.led_block_leds_time_start ∧ s.led_block_leds_time_start ≤ 23)) ∧
  (s.led_block_leds_time_stop = -1 ∨
    (0 ≤ s.led_block_leds_time_stop ∧ s.led_block_leds_time_stop ≤ 23))

/-! ## Observations on the register file -/

/-- The 2-bit enable field of channel `n` in a value of `LEDEN`
(0 disabled, 1 always on, 2 blink). -/
def enable_field (leden n : Nat) : Nat := (leden >>> (2 * n)) &&& 3

/-- Enable state of channel `n` in state `s`, read from the byte in `LEDEN`. -/
def channel_state (s : State) (n : Nat) : Nat :=
  enable_field (s.regs MAX77843_RGBLED_REG_LEDEN % 256) n

/-- Brightness register of channel `n` in state `s`. -/
def channel_brightness (s : State) (n : Nat) : Nat :=
  s.regs (MAX77843_RGBLED_REG_LED0BRT + n)

/-- A transport on which every register access succeeds. -/
def io_ok (s : State) : Prop := ∀ k, s.io_fail k = false

/-- State `s` with register file `r` and access count `c`, all globals kept. -/
def State.withRegs (s : State) (r : Nat → Nat) (c : Nat) : State :=
  { s with regs := r, io_count := c }

/-- State `s` with the four globals that the handlers of register commands
assign: `led_dynamic_current`, the two blink delays and `GBLdev`. -/
def State.withGlobals (s : State) (current delay_on delay_off : Nat) (dev : Option Unit) :
    State :=
  { s with led_dynamic_current := current, delay_on_times_ms := delay_on,
           delay_off_times_ms := delay_off, GBLdev := dev }


/-! ## Helper lemmas: bytes and enable fields -/

theorem update_bits_lt (old value mask : Nat) : update_bits old value mask < 256 := by
  unfold update_bits
  have h1 : (value % 256 &&& mask % 256) < 2 ^ 8 :=
    lt_of_le_of_lt Nat.and_le_left (Nat.mod_lt _ (by decide))
  have h2 : (old % 256 &&& (255 ^^^ mask % 256)) < 2 ^ 8 :=
    lt_of_le_of_lt Nat.and_le_left (Nat.mod_lt _ (by decide))
  exact Nat.or_lt_two_pow h1 h2

theorem update_bits_mod (old value mask : Nat) :
    update_bits (old % 256) value mask = update_bits old value mask := by
  simp [update_bits]

set_option maxRecDepth 1000000 in
theorem enable_field_set_byte : ∀ st, st < 4 → ∀ n, n < 4 → ∀ m, m < 4 → ∀ o, o < 256 →
    enable_field (update_bits o ((st <<< (2 * n)) % 4294967296) (3 <<< (2 * n))) m
      = if m = n then st else enable_field o m := by
  decide!

set_option maxRecDepth 1000000 in
theorem enable_field_const_byte : ∀ n, n < 4 → ∀ m, m < 4 → ∀ o, o < 256 →
    enable_field (update_bits o 0 (3 <<< (2 * n))) m
      = (if m = n then 0 else enable_field o m) ∧
    enable_field (update_bits o 0x55 (3 <<< (2 * n))) m
      = (if m = n then 1 else enable_field o m) := by
  decide!

/-- The enable fields after the final update of `max77843_rgb_set_state`. -/
theorem enable_field_set (st n m o : Nat) (hst : st < 4) (hn : n < 4) (hm : m < 4) :
    enable_field (update_bits o ((st <<< (2 * n)) % U32) (3 <<< (2 * n))) m
      = if m = n then st else enable_field (o % 256) m := by
  rw [← update_bits_mod]
  exact enable_field_set_byte st hst n hn m hm (o % 256) (Nat.mod_lt _ (by decide))

/-- The enable fields after the update of `max77843_rgb_set` that clears a
channel. -/
theorem enable_field_clear (n m o : Nat) (hn : n < 4) (hm : m < 4) :
    enable_field (update_bits o 0 (3 <<< (2 * n))) m
      = if m = n then 0 else enable_field (o % 256) m := by
  rw [← update_bits_mod]
  exact (enable_field_const_byte n hn m hm (o % 256) (Nat.mod_lt _ (by decide))).1

/-- The enable fields after the update of `max77843_rgb_set` that turns a
channel on. -/
theorem enable_field_on (n m o : Nat) (hn : n < 4) (hm : m < 4) :
    enable_field (update_bits o 0x55 (3 <<< (2 * n))) m
      = if m = n then 1 else enable_field (o % 256) m := by
  rw [← update_bits_mod]
  exact (enable_field_const_byte n hn m hm (o % 256) (Nat.mod_lt _ (by decide))).2

/-! ## Helper lemmas: register accesses on a transport that succeeds -/

@[simp] theorem withRegs_regs (s : State) (r : Nat → Nat) (c : Nat) :
    (s.withRegs r c).regs = r := rfl

@[simp] theorem withRegs_withRegs (s : State) (r r2 : Nat → Nat) (c c2 : Nat) :
    (s.withRegs r c).withRegs r2 c2 = s.withRegs r2 c2 := rfl

@[simp] theorem withRegs_io_count (s : State) (r : Nat → Nat) (c : Nat) :
    (s.withRegs r c).io_count = c := rfl

@[simp] theorem withRegs_io_fail (s : State) (r : Nat → Nat) (c : Nat) :
    (s.withRegs r c).io_fail = s.io_fail := rfl

@[simp] theorem withRegs_led_dynamic_current (s : State) (r : Nat → Nat) (c : Nat) :
    (s.withRegs r c).led_dynamic_current = s.led_dynamic_current := rfl

@[simp] theorem withRegs_normal_powermode_current (s : State) (r : Nat → Nat) (c : Nat) :
    (s.withRegs r c).normal_powermode_current = s.normal_powermode_current := rfl

@[simp] theorem withRegs_low_powermode_current (s : State) (r : Nat → Nat) (c : Nat) :
    (s.withRegs r c).low_powermode_current = s.low_powermode_current := rfl

@[simp] theorem withRegs_device_type (s : State) (r : Nat → Nat) (c : Nat) :
    (s.withRegs r c).device_type = s.device_type := rfl

@[simp] theorem withRegs_brightness_ratio_r (s : State) (r : Nat → Nat) (c : Nat) :
    (s.withRegs r c).brightness_ratio_r = s.brightness_ratio_r := rfl

@[simp] theorem withRegs_brightness_ratio_g (s : State) (r : Nat → Nat) (c : Nat) :
    (s.withRegs r c).brightness_ratio_g = s.brightness_ratio_g := rfl

@[simp] theorem withRegs_brightness_ratio_b (s : State) (r : Nat → Nat) (c : Nat) :
    (s.withRegs r c).brightness_ratio_b = s.brightness_ratio_b := rfl

@[simp] theorem withRegs_led_lowpower_mode (s : State) (r : Nat → Nat) (c : Nat) :
    (s.withRegs r c).led_lowpower_mode = s.led_lowpower_mode := rfl

@[simp] theorem withRegs_octa_color (s : State) (r : Nat → Nat) (c : Nat) :
    (s.withRegs r c).octa_color = s.octa_color := rfl

@[simp] theorem withRegs_led_enable_fade (s : State) (r : Nat → Nat) (c : Nat) :
    (s.withRegs r c).led_enable_fade = s.led_enable_fade := rfl

@[simp] theorem withRegs_led_fade_time_up (s : State) (r : Nat → Nat) (c : Nat) :
    (s.withRegs r c).led_fade_time_up = s.led_fade_time_up := rfl

@[simp] theorem withRegs_led_fade_time_down (s : State) (r : Nat → Nat) (c : Nat) :
    (s.withRegs r c).led_fade_time_down = s.led_fade_time_down := rfl

@[simp] theorem withRegs_led_always_disable (s : State) (r : Nat → Nat) (c : Nat) :
    (s.withRegs r c).led_always_disable = s.led_always_disable := rfl

@[simp] theorem withRegs_led_debug_enable (s : State) (r : Nat → Nat) (c : Nat) :
    (s.withRegs r c).led_debug_enable = s.led_debug_enable := rfl

@[simp] theorem withRegs_led_block_leds_time_start (s : State) (r : Nat → Nat) (c : Nat) :
    (s.withRegs r c).led_block_leds_time_start = s.led_block_leds_time_start := rfl

@[simp] theorem withRegs_led_block_leds_time_stop (s : State) (r : Nat → Nat) (c : Nat) :
    (s.withRegs r c).led_block_leds_time_stop = s.led_block_leds_time_stop := rfl

@[simp] theorem withRegs_GBLdev (s : State) (r : Nat → Nat) (c : Nat) :
    (s.withRegs r c).GBLdev = s.GBLdev := rfl

@[simp] theorem withRegs_is_work_active (s : State) (r : Nat → Nat) (c : Nat) :
    (s.withRegs r c).is_work_active = s.is_work_active := rfl

@[simp] theorem withRegs_work_pending (s : State) (r : Nat → Nat) (c : Nat) :
    (s.withRegs r c).work_pending = s.work_pending := rfl

@[simp] theorem withRegs_delay_on_times_ms (s : State) (r : Nat → Nat) (c : Nat) :
    (s.withRegs r c).delay_on_times_ms = s.delay_on_times_ms := rfl

@[simp] theorem withRegs_delay_off_times_ms (s : State) (r : Nat → Nat) (c : Nat) :
    (s.withRegs r c).delay_off_times_ms = s.delay_off_times_ms := rfl

@[simp] theorem io_ok_withRegs (s : State) (r : Nat → Nat) (c : Nat) :
    io_ok (s.withRegs r c) ↔ io_ok s := Iff.rfl

theorem withRegs_self (s : State) : s.withRegs s.regs s.io_count = s := rfl

theorem write_reg_ok (s : State) (h : io_ok s) (reg value : Nat) :
    max77843_write_reg s reg value
      = (s.withRegs (Function.update s.regs reg (value % 256)) (s.io_count + 1), false) := by
  simp [max77843_write_reg, h s.io_count, State.withRegs]

theorem update_reg_ok (s : State) (h : io_ok s) (reg value mask : Nat) :
    max77843_update_reg s reg value mask
      = (s.withRegs (Function.update s.regs reg (update_bits (s.regs reg) value mask))
          (s.io_count + 1), false) := by
  simp [max77843_update_reg, h s.io_count, State.withRegs]

theorem scale_brightness_withRegs (s : State) (r : Nat → Nat) (c n b : Nat) :
    scale_brightness (s.withRegs r c) n b = scale_brightness s n b := rfl

/-- Effect of `max77843_rgb_set_state` when no access fails: channel `n` gets the
enable state `st`, its brightness register gets the scaled brightness when that
is not zero, and nothing else changes. -/
theorem set_state_ok (s : State) (h : io_ok s) (n b st : Nat) (hn : n < 4) (hst : st < 4) :
    ∃ r c, max77843_rgb_set_state s n b st = s.withRegs r c ∧
      enable_field (r MAX77843_RGBLED_REG_LEDEN % 256) n = st ∧
      (∀ m, m < 4 → m ≠ n → enable_field (r MAX77843_RGBLED_REG_LEDEN % 256) m
        = enable_field (s.regs MAX77843_RGBLED_REG_LEDEN % 256) m) ∧
      (scale_brightness s n b ≠ 0 →
        r (MAX77843_RGBLED_REG_LED0BRT + n) = scale_brightness s n b % 256) ∧
      (scale_brightness s n b = 0 →
        r (MAX77843_RGBLED_REG_LED0BRT + n) = s.regs (MAX77843_RGBLED_REG_LED0BRT + n)) ∧
      (∀ a, a ≠ MAX77843_RGBLED_REG_LEDEN → a ≠ MAX77843_RGBLED_REG_LED0BRT + n →
        r a = s.regs a) := by
  have hne : MAX77843_RGBLED_REG_LED0BRT + n ≠ MAX77843_RGBLED_REG_LEDEN := by
    unfold MAX77843_RGBLED_REG_LED0BRT MAX77843_RGBLED_REG_LEDEN; omega
  have hb1 := update_bits_lt
  by_cases hz : scale_brightness s n b = 0
  · have e : max77843_rgb_set_state s n b st = s.withRegs
        (Function.update
          (Function.update s.regs MAX77843_RGBLED_REG_LEDEN
            (update_bits (s.regs MAX77843_RGBLED_REG_LEDEN) 0 (3 <<< (2 * n))))
          MAX77843_RGBLED_REG_LEDEN
          (update_bits (update_bits (s.regs MAX77843_RGBLED_REG_LEDEN) 0 (3 <<< (2 * n)))
            ((st <<< (2 * n)) % U32) (3 <<< (2 * n))))
        (s.io_count + 1 + 1) := by
      simp only [max77843_rgb_set_state, max77843_rgb_number, hn, if_true, max77843_rgb_set,
        hz, LED_OFF]
      simp only [update_reg_ok, h, io_ok_withRegs, withRegs_regs, withRegs_io_count,
        withRegs_withRegs, Function.update_same]
    refine ⟨_, _, e, ?_, ?_, ?_, ?_, ?_⟩
    · simp only [Function.update_same, Nat.mod_eq_of_lt (hb1 _ _ _)]
      rw [enable_field_set st n n _ hst hn hn]; simp
    · intro m hm hmn
      simp only [Function.update_same, Nat.mod_eq_of_lt (hb1 _ _ _)]
      rw [enable_field_set st n m _ hst hn hm, if_neg hmn, Nat.mod_eq_of_lt (hb1 _ _ _),
        enable_field_clear n m _ hn hm, if_neg hmn]
    · intro hnz; exact absurd hz hnz
    · intro _
      simp only [Function.update_noteq hne]
    · intro a ha _
      simp only [Function.update_noteq ha]
  · have e : max77843_rgb_set_state s n b st = s.withRegs
        (Function.update
          (Function.update
            (Function.update s.regs (MAX77843_RGBLED_REG_LED0BRT + n)
              (scale_brightness s n b % 256))
            MAX77843_RGBLED_REG_LEDEN
            (update_bits (s.regs MAX77843_RGBLED_REG_LEDEN) 0x55 (3 <<< (2 * n))))
          MAX77843_RGBLED_REG_LEDEN
          (update_bits (update_bits (s.regs MAX77843_RGBLED_REG_LEDEN) 0x55 (3 <<< (2 * n)))
            ((st <<< (2 * n)) % U32) (3 <<< (2 * n))))
        (s.io_count + 1 + 1 + 1) := by
      simp only [max77843_rgb_set_state, max77843_rgb_number, hn, if_true, max77843_rgb_set,
        hz, LED_OFF, if_false]
      simp only [write_reg_ok, update_reg_ok, h, io_ok_withRegs, withRegs_regs,
        withRegs_io_count, withRegs_withRegs, Function.update_same, Bool.false_eq_true,
        if_false, Function.update_noteq hne.symm]
    refine ⟨_, _, e, ?_, ?_, ?_, ?_, ?_⟩
    · simp only [Function.update_same, Nat.mod_eq_of_lt (hb1 _ _ _)]
      rw [enable_field_set st n n _ hst hn hn]; simp
    · intro m hm hmn
      simp only [Function.update_same, Nat.mod_eq_of_lt (hb1 _ _ _)]
      rw [enable_field_set st n m _ hst hn hm, if_neg hmn, Nat.mod_eq_of_lt (hb1 _ _ _),
        enable_field_on n m _ hn hm, if_neg hmn]
    · intro _
      simp only [Function.update_noteq hne, Function.update_same]
    · intro hnz; exact absurd hnz hz
    · intro a ha ha2
      simp only [Function.update_noteq ha, Function.update_noteq ha2]

theorem ramp_ok (s : State) (h : io_ok s) (ramp_up ramp_down : Nat) :
    max77843_rgb_ramp s ramp_up ramp_down
      = (s.withRegs (Function.update s.regs MAX77843_RGBLED_REG_LEDRMP
          (ramp_value ramp_up ramp_down s.led_fade_time_up s.led_fade_time_down % 256))
          (s.io_count + 1), 0) := by
  simp [max77843_rgb_ramp, write_reg_ok, h]

theorem blink_ok (s : State) (h : io_ok s) (delay_on delay_off : Nat) :
    max77843_rgb_blink s delay_on delay_off
      = (s.withRegs (Function.update s.regs MAX77843_RGBLED_REG_LEDBLNK
          (blink_value delay_on delay_off % 256)) (s.io_count + 1), 0) := by
  simp [max77843_rgb_blink, write_reg_ok, h]

theorem ramp_value_zero (fade_up fade_down : Nat) : ramp_value 0 0 fade_up fade_down = 0 := by
  have h : ∀ f, ramp_code 0 f = 0 := by
    intro f
    simp only [ramp_code, Nat.zero_le, if_true]
    decide
  simp [ramp_value, h]

theorem scale_brightness_zero (s : State) (n : Nat) : scale_brightness s n 0 = 0 := by
  simp [scale_brightness]

/-- Effect of `max77843_rgb_reset` when no access fails: Red, Green and Blue are
disabled and the ramp register is 0; the enable field of channel 0 and every
other register keep their values. -/
theorem reset_ok (s : State) (h : io_ok s) :
    ∃ r c, max77843_rgb_reset (some ()) s = some (s.withRegs r c) ∧
      enable_field (r MAX77843_RGBLED_REG_LEDEN % 256) RED = 0 ∧
      enable_field (r MAX77843_RGBLED_REG_LEDEN % 256) GREEN = 0 ∧
      enable_field (r MAX77843_RGBLED_REG_LEDEN % 256) BLUE = 0 ∧
      enable_field (r MAX77843_RGBLED_REG_LEDEN % 256) WHITE
        = enable_field (s.regs MAX77843_RGBLED_REG_LEDEN % 256) WHITE ∧
      r MAX77843_RGBLED_REG_LEDRMP = 0 ∧
      (∀ a, a ≠ MAX77843_RGBLED_REG_LEDEN → a ≠ MAX77843_RGBLED_REG_LEDRMP →
        r a = s.regs a) := by
  obtain ⟨r1, c1, e1, f1, o1, -, b1, k1⟩ :=
    set_state_ok s h RED LED_OFF LED_DISABLE (by decide) (by decide)
  obtain ⟨r2, c2, e2, f2, o2, -, b2, k2⟩ :=
    set_state_ok (s.withRegs r1 c1) ((io_ok_withRegs s r1 c1).2 h) GREEN LED_OFF LED_DISABLE
      (by decide) (by decide)
  obtain ⟨r3, c3, e3, f3, o3, -, b3, k3⟩ :=
    set_state_ok (s.withRegs r2 c2) ((io_ok_withRegs s r2 c2).2 h) BLUE LED_OFF LED_DISABLE
      (by decide) (by decide)
  simp only [withRegs_withRegs, withRegs_regs] at e2 e3 o2 o3 k2 k3
  have hrl : MAX77843_RGBLED_REG_LEDEN ≠ MAX77843_RGBLED_REG_LEDRMP := by decide
  refine ⟨Function.update r3 MAX77843_RGBLED_REG_LEDRMP 0, c3 + 1, ?_, ?_, ?_, ?_, ?_, ?_, ?_⟩
  · simp only [max77843_rgb_reset, e1, e2, e3]
    rw [ramp_ok _ ((io_ok_withRegs s r3 c3).2 h)]
    simp [ramp_value_zero]
  · rw [Function.update_noteq hrl, o3 RED (by decide) (by decide),
      o2 RED (by decide) (by decide)]
    exact f1
  · rw [Function.update_noteq hrl, o3 GREEN (by decide) (by decide)]
    exact f2
  · rw [Function.update_noteq hrl]
    exact f3
  · rw [Function.update_noteq hrl, o3 WHITE (by decide) (by decide),
      o2 WHITE (by decide) (by decide), o1 WHITE (by decide) (by decide)]
  · exact Function.update_same _ _ _
  · intro a ha ha2
    rw [Function.update_noteq ha2]
    by_cases h3 : a = MAX77843_RGBLED_REG_LED0BRT + BLUE
    · rw [h3, b3 (scale_brightness_zero _ _), withRegs_regs,
        k2 _ (by decide) (by decide), k1 _ (by decide) (by decide)]
    · rw [k3 a ha h3]
      by_cases h2 : a = MAX77843_RGBLED_REG_LED0BRT + GREEN
      · rw [h2, b2 (scale_brightness_zero _ _), withRegs_regs, k1 _ (by decide) (by decide)]
      · rw [k2 a ha h2]
        by_cases h1 : a = MAX77843_RGBLED_REG_LED0BRT + RED
        · rw [h1, b1 (scale_brightness_zero _ _)]
        · exact k1 a ha h1

/-- With `led_always_disable` clear and the hour outside any set window,
`check_restrictions` allows and does nothing. -/
theorem check_restrictions_allowed (now : Clock) (s : State)
    (had : s.led_always_disable = 0)
    (hw : s.led_block_leds_time_start = -1 ∨ s.led_block_leds_time_stop = -1 ∨
      window_allows s.led_block_leds_time_start s.led_block_leds_time_stop (curhour now)
        = true) :
    check_restrictions now s = some (true, s) := by
  unfold check_restrictions
  simp only [had, ne_eq, not_true_eq_false, if_false]
  split_ifs with h1 h2
  · rcases hw with hw | hw | hw
    · exact absurd hw h1.1
    · exact absurd hw h1.2
    · rw [hw] at h2; exact absurd h2.1 (by decide)
  · rcases hw with hw | hw | hw
    · exact absurd hw h1.1
    · exact absurd hw h1.2
    · rw [hw]
  · rfl

theorem pattern_switch_powering (s : State) :
    pattern_switch s POWERING =
      max77843_rgb_set_state
        (max77843_rgb_set_state (max77843_rgb_blink (max77843_rgb_ramp s 800 800).1 200 200).1
          BLUE (max77843_rgb_blink (max77843_rgb_ramp s 800 800).1 200 200).1.led_dynamic_current
          LED_ALWAYS_ON)
        GREEN
        (max77843_rgb_set_state (max77843_rgb_blink (max77843_rgb_ramp s 800 800).1 200 200).1
          BLUE (max77843_rgb_blink (max77843_rgb_ramp s 800 800).1 200 200).1.led_dynamic_current
          LED_ALWAYS_ON).led_dynamic_current
        LED_BLINK := rfl

/-! ## Helper lemmas: derating arithmetic -/

/-- One channel of the derating, multiplied out: a derated value `d` that is 1
or at most `c * M / T` weighs at most the share of `M` of the input `c`, plus
one weighted step `E`. -/
theorem derate_channel_bound (c ratio M T E d : Nat) (hT : M < T)
    (hd : d = 1 ∨ d ≤ c * M / T) (hE : ratio / 100 ≤ E) (hE1 : 1 ≤ E) :
    (d * ratio / 100) * T ≤ (c * ratio / 100) * M + E * T := by
  rcases hd with h1 | hq
  · subst h1
    rw [Nat.one_mul]
    exact le_trans (Nat.mul_le_mul_right T hE) (Nat.le_add_left _ _)
  · have h100 : 100 * (d * ratio / 100) ≤ d * ratio := Nat.mul_div_le _ _
    have hqT : (c * M / T) * T ≤ c * M := Nat.div_mul_le_self _ _
    have hf : c * ratio ≤ 100 * (c * ratio / 100) + 99 := by omega
    have h1 : 100 * (d * ratio / 100) * T ≤ d * ratio * T := Nat.mul_le_mul_right T h100
    have h2 : d * ratio * T ≤ (c * M / T) * ratio * T :=
      Nat.mul_le_mul_right T (Nat.mul_le_mul_right ratio hq)
    have h3 : (c * M / T) * ratio * T ≤ c * M * ratio := by
      calc (c * M / T) * ratio * T = (c * M / T) * T * ratio := by ring
        _ ≤ c * M * ratio := Nat.mul_le_mul_right ratio hqT
    have h4 : c * M * ratio ≤ (100 * (c * ratio / 100) + 99) * M := by
      calc c * M * ratio = c * ratio * M := by ring
        _ ≤ (100 * (c * ratio / 100) + 99) * M := Nat.mul_le_mul_right M hf
    have h5 : 100 * ((d * ratio / 100) * T) ≤ 100 * ((c * ratio / 100) * M + E * T) := by
      have h6 : 99 * M ≤ 100 * T := by omega
      have h7 : T ≤ E * T := Nat.le_mul_of_pos_left T hE1
      nlinarith
    exact Nat.le_of_mul_le_mul_left h5 (by decide)

/-- A plain rescaling statement yields 1 or at most `c * M / T`; no operation
wraps for a `u8` input and `M < T`. -/
theorem derate_plain_cases (c M T : Nat) (hc : c ≤ 255) (hM : M ≤ 2550) (hT : M < T) :
    derate_plain c M T = c * M / T ∧ c = 0 ∨
      derate_plain c M T = 1 ∨ derate_plain c M T ≤ c * M / T := by
  have hcM : c * M < U32 := by
    have : c * M ≤ 255 * 2550 := Nat.mul_le_mul hc hM
    unfold U32; omega
  have hq : c * M / T ≤ c := by
    apply Nat.div_le_of_le_mul
    calc c * M ≤ c * T := Nat.mul_le_mul_left c (le_of_lt hT)
      _ = T * c := Nat.mul_comm _ _
  have hq256 : c * M / T < 256 := by omega
  unfold derate_plain
  by_cases h0 : c = 0
  · left; subst h0; simp
  · right
    simp only [ne_eq, h0, not_false_eq_true, if_true, Nat.mod_eq_of_lt hcM,
      Nat.mod_eq_of_lt hq256]
    split_ifs
    · left; rfl
    · right; exact le_refl _

/-- A workaround rescaling statement yields 1 or at most `c * M / T`. -/
theorem derate_workaround_cases (c M T : Nat) (hc : c ≤ 255) (hM : M ≤ 2550) (hT : M < T) :
    derate_workaround c M T = c * M / T ∧ c = 0 ∨
      derate_workaround c M T = 1 ∨ derate_workaround c M T ≤ c * M / T := by
  have hcM : c * M < U32 := by
    have : c * M ≤ 255 * 2550 := Nat.mul_le_mul hc hM
    unfold U32; omega
  have hq : c * M / T ≤ c := by
    apply Nat.div_le_of_le_mul
    calc c * M ≤ c * T := Nat.mul_le_mul_left c (le_of_lt hT)
      _ = T * c := Nat.mul_comm _ _
  have hq8 : c * M / T * 8 < U32 := by unfold U32; omega
  have hq256 : c * M / T * 8 / 10 < 256 := by omega
  unfold derate_workaround
  by_cases h0 : c = 0
  · left; subst h0; simp
  · right
    simp only [ne_eq, h0, not_false_eq_true, if_true, Nat.mod_eq_of_lt hcM,
      Nat.mod_eq_of_lt hq8, Nat.mod_eq_of_lt hq256]
    split_ifs
    · left; rfl
    · right; omega

/-- The weighted total without wrap, for `u8` components and ratios up to 1000. -/
theorem led_total_br_eq (s : State) (r g b : Nat)
    (hr : r ≤ 255) (hg : g ≤ 255) (hb : b ≤ 255)
    (hrr : s.brightness_ratio_r ≤ 1000) (hrg : s.brightness_ratio_g ≤ 1000)
    (hrb : s.brightness_ratio_b ≤ 1000) :
    led_total_br s r g b = r * s.brightness_ratio_r / 100 + g * s.brightness_ratio_g / 100
      + b * s.brightness_ratio_b / 100 := by
  have h1 : r * s.brightness_ratio_r ≤ 255 * 1000 := Nat.mul_le_mul hr hrr
  have h2 : g * s.brightness_ratio_g ≤ 255 * 1000 := Nat.mul_le_mul hg hrg
  have h3 : b * s.brightness_ratio_b ≤ 255 * 1000 := Nat.mul_le_mul hb hrb
  unfold led_total_br
  simp only [Nat.zero_add]
  rw [Nat.mod_eq_of_lt (show r * s.brightness_ratio_r < U32 by unfold U32; omega),
    Nat.mod_eq_of_lt (show g * s.brightness_ratio_g < U32 by unfold U32; omega),
    Nat.mod_eq_of_lt (show b * s.brightness_ratio_b < U32 by unfold U32; omega),
    Nat.mod_eq_of_lt (show r * s.brightness_ratio_r / 100 < U32 by unfold U32; omega),
    Nat.mod_eq_of_lt (show r * s.brightness_ratio_r / 100 + g * s.brightness_ratio_g / 100
      < U32 by unfold U32; omega),
    Nat.mod_eq_of_lt (show r * s.brightness_ratio_r / 100 + g * s.brightness_ratio_g / 100
      + b * s.brightness_ratio_b / 100 < U32 by unfold U32; omega)]

/-- The ceiling `led_max_br` without wrap: `normal_powermode_current` times the
largest ratio, over 100. -/
theorem led_max_br_eq (s : State) (hc : s.normal_powermode_current ≤ 255)
    (hrr : s.brightness_ratio_r ≤ 1000) (hrg : s.brightness_ratio_g ≤ 1000)
    (hrb : s.brightness_ratio_b ≤ 1000) :
    led_max_br s = s.normal_powermode_current *
      max s.brightness_ratio_r (max s.brightness_ratio_g s.brightness_ratio_b) / 100 := by
  have h1 : s.normal_powermode_current * s.brightness_ratio_r ≤ 255 * 1000 :=
    Nat.mul_le_mul hc hrr
  have h2 : s.normal_powermode_current * s.brightness_ratio_g ≤ 255 * 1000 :=
    Nat.mul_le_mul hc hrg
  have h3 : s.normal_powermode_current * s.brightness_ratio_b ≤ 255 * 1000 :=
    Nat.mul_le_mul hc hrb
  unfold led_max_br
  split_ifs with c1 c2 c3
  · rw [Nat.mod_eq_of_lt (by unfold U32; omega)]
    have : max s.brightness_ratio_r (max s.brightness_ratio_g s.brightness_ratio_b)
        = s.brightness_ratio_r := by omega
    rw [this]
  · rw [Nat.mod_eq_of_lt (by unfold U32; omega)]
    have : max s.brightness_ratio_r (max s.brightness_ratio_g s.brightness_ratio_b)
        = s.brightness_ratio_g := by omega
    rw [this]
  · rw [Nat.mod_eq_of_lt (by unfold U32; omega)]
    have : max s.brightness_ratio_r (max s.brightness_ratio_g s.brightness_ratio_b)
        = s.brightness_ratio_b := by omega
    rw [this]
  · omega

/-! ## Helper lemmas: quantizer bounds -/

theorem LEDBLNK_ON_le (time : Nat) : LEDBLNK_ON time ≤ 15 := by
  unfold LEDBLNK_ON
  split_ifs <;> omega

theorem LEDBLNK_OFF_le (time : Nat) : LEDBLNK_OFF time ≤ 15 := by
  unfold LEDBLNK_OFF
  split_ifs <;> omega

theorem nibble_pack : ∀ a, a < 16 → ∀ b, b < 16 →
    ((a <<< 4) % 4294967296 ||| b) < 256 ∧ ((a <<< 4) % 4294967296 ||| b) / 16 = a ∧
      ((a <<< 4) % 4294967296 ||| b) % 16 = b := by
  decide

theorem window_allows_false_iff (start stop hour : Int) :
    window_allows start stop hour = false ↔
      ((start > stop ∧ (hour ≥ start ∨ hour < stop)) ∨
        (start ≤ stop ∧ start ≤ hour ∧ hour < stop)) := by
  unfold window_allows
  split_ifs <;> simp <;> omega

/-! ## Claims -/

/-- C1: for a raw brightness in 1..255 and ratios in 1..1000 the ratio scaling of
`max77843_rgb_set_state` gives `raw * ratio / 100` floored to 1 on each of Red,
Green and Blue, hence a value of at least 1; a raw brightness of 0 stays 0. -/
theorem scale_brightness_floor (s : State) (n raw : Nat)
    (hraw : 1 ≤ raw ∧ raw ≤ 255)
    (hr : 1 ≤ s.brightness_ratio_r ∧ s.brightness_ratio_r ≤ 1000)
    (hg : 1 ≤ s.brightness_ratio_g ∧ s.brightness_ratio_g ≤ 1000)
    (hb : 1 ≤ s.brightness_ratio_b ∧ s.brightness_ratio_b ≤ 1000) :
    scale_brightness s RED raw = max 1 (raw * s.brightness_ratio_r / 100) ∧
    scale_brightness s GREEN raw = max 1 (raw * s.brightness_ratio_g / 100) ∧
    scale_brightness s BLUE raw = max 1 (raw * s.brightness_ratio_b / 100) ∧
    1 ≤ scale_brightness s RED raw ∧ 1 ≤ scale_brightness s GREEN raw ∧
    1 ≤ scale_brightness s BLUE raw ∧ scale_brightness s n 0 = 0 := by
  have key : ∀ q, 1 ≤ q ∧ q ≤ 1000 →
      (if raw * q % U32 / 100 = 0 then 1 else raw * q % U32 / 100) = max 1 (raw * q / 100) := by
    intro q hq
    have hlt : raw * q < U32 := by
      have : raw * q ≤ 255 * 1000 := Nat.mul_le_mul hraw.2 hq.2
      unfold U32; omega
    rw [Nat.mod_eq_of_lt hlt]
    split_ifs with h0
    · rw [h0]; rfl
    · exact (max_eq_right (by omega)).symm
  have h0 : raw ≠ 0 := by omega
  have eR : scale_brightness s RED raw = max 1 (raw * s.brightness_ratio_r / 100) := by
    simp only [scale_brightness, RED, GREEN, BLUE, ne_eq, h0, not_false_eq_true, if_true]
    exact key _ hr
  have eG : scale_brightness s GREEN raw = max 1 (raw * s.brightness_ratio_g / 100) := by
    simp only [scale_brightness, RED, GREEN, BLUE, ne_eq, h0, not_false_eq_true, if_true]
    exact key _ hg
  have eB : scale_brightness s BLUE raw = max 1 (raw * s.brightness_ratio_b / 100) := by
    simp only [scale_brightness, RED, GREEN, BLUE, ne_eq, h0, not_false_eq_true, if_true]
    exact key _ hb
  refine ⟨eR, eG, eB, ?_, ?_, ?_, ?_⟩
  · rw [eR]; exact le_max_left _ _
  · rw [eG]; exact le_max_left _ _
  · rw [eB]; exact le_max_left _ _
  · simp [scale_brightness]

/-- Witness of C1 at raw brightness 1 and ratios 90, 100, 150. -/
theorem scale_brightness_floor_witness :
    scale_brightness { State.init (fun _ => 0) (fun _ => false) with
        brightness_ratio_r := 90, brightness_ratio_b := 150 } RED 1 = 1 :=
  ((scale_brightness_floor { State.init (fun _ => 0) (fun _ => false) with
        brightness_ratio_r := 90, brightness_ratio_b := 150 } RED 1
      (by decide) (by decide) (by decide) (by decide)).1).trans (by decide)

/-- C6: the blink quantizer macros are the piecewise functions of the
specification on every duration (every `unsigned int` in particular), with the listed boundary
values. -/
theorem blink_quantizer_definition (ms : Nat) :
    (ms < 100 → LEDBLNK_ON ms = 0) ∧
    (100 ≤ ms ∧ ms < 500 → LEDBLNK_ON ms = ms / 100 - 1) ∧
    (500 ≤ ms ∧ ms < 3250 → LEDBLNK_ON ms = (ms - 500) / 250 + 4) ∧
    (3250 ≤ ms → LEDBLNK_ON ms = 15) ∧
    (ms < 1 → LEDBLNK_OFF ms = 0) ∧
    (1 ≤ ms ∧ ms < 500 → LEDBLNK_OFF ms = 1) ∧
    (500 ≤ ms ∧ ms < 5000 → LEDBLNK_OFF ms = ms / 500) ∧
    (5000 ≤ ms ∧ ms < 8000 → LEDBLNK_OFF ms = (ms - 5000) / 1000 + 10) ∧
    (8000 ≤ ms ∧ ms < 12000 → LEDBLNK_OFF ms = (ms - 8000) / 2000 + 13) ∧
    (12000 ≤ ms → LEDBLNK_OFF ms = 15) ∧
    LEDBLNK_ON 99 = 0 ∧ LEDBLNK_ON 100 = 0 ∧ LEDBLNK_ON 499 = 3 ∧ LEDBLNK_ON 500 = 4 ∧
    LEDBLNK_ON 3250 = 15 ∧ LEDBLNK_OFF 0 = 0 ∧ LEDBLNK_OFF 4999 = 9 ∧
    LEDBLNK_OFF 5000 = 10 := by
  refine ⟨?_, ?_, ?_, ?_, ?_, ?_, ?_, ?_, ?_, ?_, by decide, by decide, by decide, by decide,
    by decide, by decide, by decide, by decide⟩
  all_goals
    intro h
    simp only [LEDBLNK_ON, LEDBLNK_OFF]
    split_ifs <;> omega

/-- Witness of C6 at 2749 ms, the last duration below the saturated on code. -/
theorem blink_quantizer_definition_witness : LEDBLNK_ON 2749 = 12 :=
  ((blink_quantizer_definition 2749).2.2.1 (by decide)).trans (by decide)

/-- C8: for all delays (every `unsigned int` in particular) both blink codes are in 0..15, so the value
built by `max77843_rgb_blink` is a byte with the on code as high nibble and the
off code as low nibble, and that byte is what a successful write leaves in the
blink register. -/
theorem blink_codes_four_bit (s : State) (delay_on delay_off : Nat) :
    LEDBLNK_ON delay_on ≤ 15 ∧ LEDBLNK_OFF delay_off ≤ 15 ∧
    blink_value delay_on delay_off < 256 ∧
    blink_value delay_on delay_off / 16 = LEDBLNK_ON delay_on ∧
    blink_value delay_on delay_off % 16 = LEDBLNK_OFF delay_off ∧
    (s.io_fail s.io_count = false →
      (max77843_rgb_blink s delay_on delay_off).1.regs MAX77843_RGBLED_REG_LEDBLNK
        = blink_value delay_on delay_off) := by
  have ha := LEDBLNK_ON_le delay_on
  have hb := LEDBLNK_OFF_le delay_off
  have hp := nibble_pack (LEDBLNK_ON delay_on) (by omega) (LEDBLNK_OFF delay_off) (by omega)
  refine ⟨ha, hb, hp.1, hp.2.1, hp.2.2, ?_⟩
  intro hio
  have hv : blink_value delay_on delay_off % 256 = blink_value delay_on delay_off :=
    Nat.mod_eq_of_lt hp.1
  simp [max77843_rgb_blink, max77843_write_reg, hio, hv]

/-- Witness of C8 at delays 500 ms and 5000 ms on the initial state. -/
theorem blink_codes_four_bit_witness :
    (max77843_rgb_blink (State.init (fun _ => 0) (fun _ => false)) 500 5000).1.regs
      MAX77843_RGBLED_REG_LEDBLNK = 0x4A :=
  ((blink_codes_four_bit (State.init (fun _ => 0) (fun _ => false)) 500 5000).2.2.2.2.2
      rfl).trans (by decide)

/-- C3: with `led_always_disable` clear and both bounds in 0..23,
`check_restrictions` reports blocked exactly when the hour lies in the window
(`hour >= start` or `hour < stop` when the window wraps, `start <= hour < stop`
otherwise); with either bound unset it reports allowed and leaves the state
alone. Window 22..6 blocks hours 23 and 5 and allows 10; window 6..22 blocks 10
and allows 23. -/
theorem check_restrictions_window (now : Clock) (s : State) (start stop hour : Int)
    (had : s.led_always_disable = 0)
    (hstart : s.led_block_leds_time_start = start)
    (hstop : s.led_block_leds_time_stop = stop)
    (hhour : curhour now = hour) :
    ((0 ≤ start ∧ start ≤ 23) → (0 ≤ stop ∧ stop ≤ 23) → (0 ≤ hour ∧ hour ≤ 23) →
      ∃ v t, check_restrictions now s = some (v, t) ∧
        (v = false ↔ ((start > stop ∧ (hour ≥ start ∨ hour < stop)) ∨
          (start ≤ stop ∧ start ≤ hour ∧ hour < stop)))) ∧
    ((start = -1 ∨ stop = -1) → check_restrictions now s = some (true, s)) ∧
    window_allows 22 6 23 = false ∧ window_allows 22 6 5 = false ∧
    window_allows 22 6 10 = true ∧ window_allows 6 22 10 = false ∧
    window_allows 6 22 23 = true := by
  refine ⟨?_, ?_, by decide, by decide, by decide, by decide, by decide⟩
  · subst hstart hstop hhour
    intro h1 h2 _
    have hs1 : s.led_block_leds_time_start ≠ -1 := by omega
    have hs2 : s.led_block_leds_time_stop ≠ -1 := by omega
    have hv := window_allows_false_iff s.led_block_leds_time_start
      s.led_block_leds_time_stop (curhour now)
    unfold check_restrictions
    simp only [had, ne_eq, not_true_eq_false, if_false, hs1, hs2, not_false_eq_true,
      and_self, if_true]
    split_ifs with hc
    · cases hg : s.GBLdev with
      | none => exact absurd hg hc.2
      | some u =>
        simp only [max77843_rgb_reset, Option.map]
        exact ⟨_, _, rfl, hv⟩
    · exact ⟨_, s, rfl, hv⟩
  · intro h
    unfold check_restrictions
    have : ¬ (s.led_block_leds_time_start ≠ -1 ∧ s.led_block_leds_time_stop ≠ -1) := by
      rw [hstart, hstop]
      rcases h with h | h <;> simp [h]
    simp [had, this]

/-- Witness of C3: window 22..6 at 23 h (UTC clock, no zone offset), with a
recorded handle, is blocked. -/
theorem check_restrictions_window_witness :
    ∃ v t, check_restrictions ⟨23, 0⟩
        { State.init (fun _ => 0) (fun _ => false) with
          led_block_leds_time_start := 22, led_block_leds_time_stop := 6,
          GBLdev := some () } = some (v, t) ∧
      (v = false ↔ (((22 : Int) > 6 ∧ ((23 : Int) ≥ 22 ∨ (23 : Int) < 6)) ∨
        ((22 : Int) ≤ 6 ∧ (22 : Int) ≤ 23 ∧ (23 : Int) < 6))) :=
  (check_restrictions_window ⟨23, 0⟩
    { State.init (fun _ => 0) (fun _ => false) with
      led_block_leds_time_start := 22, led_block_leds_time_stop := 6,
      GBLdev := some () } 22 6 23 rfl rfl rfl (by decide)).1
    (by decide) (by decide) (by decide)

/-- C4, counterexample: with `led_always_disable` set and every register at
0xFF beforehand, handling Charging leaves the reserved channel enabled (field 3)
and the brightness register of Red at 255. -/
theorem pattern_charging_disable_counterexample :
    (store_max77843_rgb_pattern ⟨10, 0⟩
      { State.init (fun _ => 0xFF) (fun _ => false) with led_always_disable := 1 }
      CHARGING).map (fun t => (channel_state t WHITE, channel_brightness t RED))
      = some (3, 255) := by
  decide

/-- C4, amended: with `led_always_disable` set and a transport that succeeds,
from every prior register state `store_max77843_rgb_pattern` on Charging returns
with Red, Green and Blue disabled and the ramp register 0, while the enable
field of the reserved channel and the four brightness registers keep their
prior values. -/
theorem pattern_charging_always_disable (now : Clock) (s : State)
    (had : s.led_always_disable ≠ 0) (hio : io_ok s) :
    ∃ t, store_max77843_rgb_pattern now s CHARGING = some t ∧
      channel_state t RED = LED_DISABLE ∧ channel_state t GREEN = LED_DISABLE ∧
      channel_state t BLUE = LED_DISABLE ∧
      t.regs MAX77843_RGBLED_REG_LEDRMP = 0 ∧
      channel_state t WHITE = channel_state s WHITE ∧
      (∀ n, n < 4 → channel_brightness t n = channel_brightness s n) := by
  have hio0 : io_ok { s with GBLdev := some () } := hio
  obtain ⟨r1, c1, e1, -, -, -, w1, -, k1⟩ := reset_ok _ hio0
  obtain ⟨r2, c2, e2, fr, fg, fb, w2, rmp, k2⟩ :=
    reset_ok (({ s with GBLdev := some () } : State).withRegs r1 c1)
      ((io_ok_withRegs _ r1 c1).2 hio0)
  simp only [withRegs_withRegs, withRegs_regs] at e2 w2 k2
  have hc : check_restrictions now (({ s with GBLdev := some () } : State).withRegs r1 c1)
      = some (false, ({ s with GBLdev := some () } : State).withRegs r2 c2) := by
    unfold check_restrictions
    have had1 : (({ s with GBLdev := some () } : State).withRegs r1 c1).led_always_disable ≠ 0 :=
      had
    have hg : (({ s with GBLdev := some () } : State).withRegs r1 c1).GBLdev = some () := rfl
    rw [if_pos had1, hg, e2]
    rfl
  refine ⟨({ s with GBLdev := some () } : State).withRegs r2 c2, ?_, fr, fg, fb, rmp, ?_, ?_⟩
  · simp only [store_max77843_rgb_pattern, e1, hc]
    simp [CHARGING, PATTERN_OFF]
  · simp only [channel_state, withRegs_regs]
    rw [w2, w1]
  · intro n hn
    simp only [channel_brightness, withRegs_regs]
    have h1 : MAX77843_RGBLED_REG_LED0BRT + n ≠ MAX77843_RGBLED_REG_LEDEN := by
      unfold MAX77843_RGBLED_REG_LED0BRT MAX77843_RGBLED_REG_LEDEN; omega
    have h2 : MAX77843_RGBLED_REG_LED0BRT + n ≠ MAX77843_RGBLED_REG_LEDRMP := by
      unfold MAX77843_RGBLED_REG_LED0BRT MAX77843_RGBLED_REG_LEDRMP; omega
    rw [k2 _ h1 h2, k1 _ h1 h2]

/-- Witness of the amended C4 on the state of the counterexample. -/
theorem pattern_charging_always_disable_witness :
    ∃ t, store_max77843_rgb_pattern ⟨10, 0⟩
        { State.init (fun _ => 0xFF) (fun _ => false) with led_always_disable := 1 }
        CHARGING = some t ∧
      channel_state t RED = LED_DISABLE ∧ channel_state t GREEN = LED_DISABLE ∧
      channel_state t BLUE = LED_DISABLE ∧
      t.regs MAX77843_RGBLED_REG_LEDRMP = 0 ∧
      channel_state t WHITE
        = channel_state { State.init (fun _ => 0xFF) (fun _ => false) with
            led_always_disable := 1 } WHITE ∧
      (∀ n, n < 4 → channel_brightness t n
        = channel_brightness { State.init (fun _ => 0xFF) (fun _ => false) with
            led_always_disable := 1 } n) :=
  pattern_charging_always_disable ⟨10, 0⟩
    { State.init (fun _ => 0xFF) (fun _ => false) with led_always_disable := 1 }
    (by decide) (fun _ => rfl)

/-- C9, counterexample: with `normal_powermode_current` 0 and every register at
0xFF beforehand, handling Powering leaves Blue always on with its brightness
register still 255, not `normal_powermode_current`. -/
theorem pattern_powering_counterexample :
    (store_max77843_rgb_pattern ⟨10, 0⟩
      { State.init (fun _ => 0xFF) (fun _ => false) with normal_powermode_current := 0 }
      POWERING).map (fun t => (channel_state t BLUE, channel_brightness t BLUE,
        t.normal_powermode_current)) = some (1, 255, 0) := by
  decide

/-- C9, amended: with ratios (100,100,100), fade times 800/800, power mode
normal, no suppression, a transport that succeeds and
`normal_powermode_current` in 1..255, handling Powering from any prior register
state leaves the ramp register `(8<<4)|8`, the blink register `(1<<4)|1`, Blue
always on and Green blinking, both at `normal_powermode_current`, and Red
disabled. (Neither the ratio of Red nor `led_enable_fade` is read on this path,
so the theorem holds for any value of them.) -/
theorem pattern_powering_end_to_end (now : Clock) (s : State)
    (hg : s.brightness_ratio_g = 100) (hb : s.brightness_ratio_b = 100)
    (hfu : s.led_fade_time_up = 800) (hfd : s.led_fade_time_down = 800)
    (hlp : s.led_lowpower_mode ≠ 1)
    (had : s.led_always_disable = 0)
    (hw : s.led_block_leds_time_start = -1 ∨ s.led_block_leds_time_stop = -1 ∨
      window_allows s.led_block_leds_time_start s.led_block_leds_time_stop (curhour now)
        = true)
    (hio : io_ok s)
    (hcur : 1 ≤ s.normal_powermode_current ∧ s.normal_powermode_current ≤ 255) :
    ∃ t, store_max77843_rgb_pattern now s POWERING = some t ∧
      t.regs MAX77843_RGBLED_REG_LEDRMP = ((8 <<< 4) ||| 8) ∧
      t.regs MAX77843_RGBLED_REG_LEDBLNK = ((1 <<< 4) ||| 1) ∧
      channel_state t BLUE = LED_ALWAYS_ON ∧
      channel_brightness t BLUE = s.normal_powermode_current ∧
      channel_state t GREEN = LED_BLINK ∧
      channel_brightness t GREEN = s.normal_powermode_current ∧
      channel_state t RED = LED_DISABLE := by
  have hio0 : io_ok { s with GBLdev := some () } := hio
  obtain ⟨r1, c1, e1, fr, -, -, -, -, -⟩ := reset_ok _ hio0
  have hc := check_restrictions_allowed now
    (({ s with GBLdev := some () } : State).withRegs r1 c1) had hw
  -- the state handed to the switch
  have hu : io_ok
      { s with GBLdev := some (), led_dynamic_current := s.normal_powermode_current } := hio
  generalize hudef :
    ({ s with GBLdev := some (), led_dynamic_current := s.normal_powermode_current } : State)
      = u at hu
  have hucur : u.led_dynamic_current = s.normal_powermode_current := by rw [← hudef]
  have hub : u.brightness_ratio_b = 100 := by rw [← hudef]; exact hb
  have hug : u.brightness_ratio_g = 100 := by rw [← hudef]; exact hg
  have hufu : u.led_fade_time_up = 800 := by rw [← hudef]; exact hfu
  have hufd : u.led_fade_time_down = 800 := by rw [← hudef]; exact hfd
  have hs3 : ({ (({ s with GBLdev := some () } : State).withRegs r1 c1) with
      led_dynamic_current :=
        if (({ s with GBLdev := some () } : State).withRegs r1 c1).led_lowpower_mode = 1
        then (({ s with GBLdev := some () } : State).withRegs r1 c1).low_powermode_current
        else (({ s with GBLdev := some () } : State).withRegs r1 c1).normal_powermode_current }
        : State) = u.withRegs r1 c1 := by
    have hlp1 : ¬ (({ s with GBLdev := some () } : State).withRegs r1 c1).led_lowpower_mode = 1 :=
      hlp
    rw [if_neg hlp1, ← hudef]
    rfl
  -- the scaled brightness is the current itself
  have hsc : ∀ n, n = BLUE ∨ n = GREEN →
      scale_brightness u n s.normal_powermode_current = s.normal_powermode_current := by
    intro n hn
    have h0 : s.normal_powermode_current ≠ 0 := by omega
    have hlt : s.normal_powermode_current * 100 < U32 := by unfold U32; omega
    rcases hn with hn | hn <;> subst hn <;>
      simp only [scale_brightness, RED, GREEN, BLUE, ne_eq, h0, not_false_eq_true, if_true,
        hub, hug, Nat.mod_eq_of_lt hlt] <;> simp <;> omega
  have hra := ramp_ok (u.withRegs r1 c1) ((io_ok_withRegs u r1 c1).2 hu) 800 800
  simp only [withRegs_led_fade_time_up, withRegs_led_fade_time_down, hufu, hufd,
    withRegs_withRegs, withRegs_regs, withRegs_io_count] at hra
  have hbl := blink_ok
    (u.withRegs (Function.update r1 MAX77843_RGBLED_REG_LEDRMP (ramp_value 800 800 800 800 % 256))
      (c1 + 1)) ((io_ok_withRegs u _ _).2 hu) 200 200
  simp only [withRegs_withRegs, withRegs_regs, withRegs_io_count] at hbl
  obtain ⟨r4, c4, e4, f4, o4, b4, -, k4⟩ :=
    set_state_ok
      (u.withRegs
        (Function.update
          (Function.update r1 MAX77843_RGBLED_REG_LEDRMP (ramp_value 800 800 800 800 % 256))
          MAX77843_RGBLED_REG_LEDBLNK (blink_value 200 200 % 256)) (c1 + 1 + 1))
      ((io_ok_withRegs u _ _).2 hu) BLUE s.normal_powermode_current LED_ALWAYS_ON
      (by decide) (by decide)
  obtain ⟨r5, c5, e5, f5, o5, b5, -, k5⟩ :=
    set_state_ok (u.withRegs r4 c4) ((io_ok_withRegs u _ _).2 hu) GREEN
      s.normal_powermode_current LED_BLINK (by decide) (by decide)
  simp only [withRegs_withRegs, withRegs_regs, scale_brightness_withRegs] at e4 e5 o4 o5 b4 b5 k4 k5
  have hsw : pattern_switch (u.withRegs r1 c1) POWERING = u.withRegs r5 c5 := by
    rw [pattern_switch_powering, hra]
    simp only []
    rw [hbl]
    simp only [withRegs_led_dynamic_current, hucur]
    rw [e4]
    simp only [withRegs_led_dynamic_current, hucur]
    rw [e5]
  have hmod : s.normal_powermode_current % 256 = s.normal_powermode_current :=
    Nat.mod_eq_of_lt (by omega)
  refine ⟨u.withRegs r5 c5, ?_, ?_, ?_, ?_, ?_, ?_, ?_, ?_⟩
  · simp only [store_max77843_rgb_pattern, e1, hc, hs3, hsw]
    simp [POWERING, PATTERN_OFF]
  · rw [withRegs_regs, k5 _ (by decide) (by decide), k4 _ (by decide) (by decide),
      Function.update_noteq (by decide), Function.update_same]
    decide
  · rw [withRegs_regs, k5 _ (by decide) (by decide), k4 _ (by decide) (by decide),
      Function.update_same]
    decide
  · simp only [channel_state, withRegs_regs]
    rw [o5 BLUE (by decide) (by decide)]
    exact f4
  · simp only [channel_brightness, withRegs_regs]
    rw [k5 _ (by decide) (by decide), b4 (by rw [hsc BLUE (Or.inl rfl)]; omega),
      hsc BLUE (Or.inl rfl), hmod]
  · simp only [channel_state, withRegs_regs]
    exact f5
  · simp only [channel_brightness, withRegs_regs]
    rw [b5 (by rw [hsc GREEN (Or.inr rfl)]; omega), hsc GREEN (Or.inr rfl), hmod]
  · simp only [channel_state, withRegs_regs]
    rw [o5 RED (by decide) (by decide), o4 RED (by decide) (by decide),
      Function.update_noteq (by decide), Function.update_noteq (by decide)]
    exact fr

/-- Witness of the amended C9 on the initial state with every register at 0xFF
beforehand. -/
theorem pattern_powering_end_to_end_witness :
    ∃ t, store_max77843_rgb_pattern ⟨10, 0⟩ (State.init (fun _ => 0xFF) (fun _ => false))
        POWERING = some t ∧
      t.regs MAX77843_RGBLED_REG_LEDRMP = ((8 <<< 4) ||| 8) ∧
      t.regs MAX77843_RGBLED_REG_LEDBLNK = ((1 <<< 4) ||| 1) ∧
      channel_state t BLUE = LED_ALWAYS_ON ∧
      channel_brightness t BLUE = 0x14 ∧
      channel_state t GREEN = LED_BLINK ∧
      channel_brightness t GREEN = 0x14 ∧
      channel_state t RED = LED_DISABLE :=
  pattern_powering_end_to_end ⟨10, 0⟩ (State.init (fun _ => 0xFF) (fun _ => false))
    rfl rfl rfl rfl (by decide) rfl (Or.inl rfl) (fun _ => rfl) (by decide)

/-- C5, evaluation at the failing input: with `led_always_disable` set (first
component), or with the block window 0..23 set (second component),
`store_max77843_rgb_blink` on 0xFF0000 returns with Red blinking at brightness
20. -/
theorem raw_blink_ignores_suppression :
    (store_max77843_rgb_blink
        { State.init (fun _ => 0) (fun _ => false) with led_always_disable := 1 }
        0xFF0000 500 500).map
      (fun t => (t.led_always_disable, channel_state t RED, channel_brightness t RED))
      = some (1, LED_BLINK, 20) ∧
    (store_max77843_rgb_blink
        { State.init (fun _ => 0) (fun _ => false) with
          led_block_leds_time_start := 0, led_block_leds_time_stop := 23 }
        0xFF0000 500 500).map
      (fun t => (window_allows t.led_block_leds_time_start t.led_block_leds_time_stop 10,
        channel_state t RED, channel_brightness t RED))
      = some (false, LED_BLINK, 20) := by
  decide

/-- C7, evaluation at the failing input: with both fade times 4000 the ramp code
is 40, outside 0..15; the `int value` is 680, and the byte that Missed
Notification leaves in the ramp register is 0xA8, whose nibbles 10 and 8 are
neither the codes nor the codes clamped to 15. With fade times 100 and 1600 the
down code 16 spills into the up nibble and the byte is 0x10. -/
theorem ramp_code_exceeds_nibble :
    ramp_code 4000 4000 = 40 ∧ ramp_value 4000 4000 4000 4000 = 680 ∧
    (store_max77843_rgb_pattern ⟨10, 0⟩
        { State.init (fun _ => 0) (fun _ => false) with
          led_fade_time_up := 4000, led_fade_time_down := 4000 } MISSED_NOTI).map
      (fun t => t.regs MAX77843_RGBLED_REG_LEDRMP) = some 0xA8 ∧
    ramp_code 1600 1600 = 16 ∧
    (store_max77843_rgb_pattern ⟨10, 0⟩
        { State.init (fun _ => 0) (fun _ => false) with
          led_fade_time_up := 100, led_fade_time_down := 1600 } MISSED_NOTI).map
      (fun t => t.regs MAX77843_RGBLED_REG_LEDRMP) = some 0x10 := by
  decide

/-- C10, counterexample: for 0xFF0000, current 20 and ratios (150,100,100) the
limited Red is 20, the weighted total is 30 and `led_max_br` is 30: the total
does not exceed `led_max_br`, and the derating step returns Red unchanged. -/
theorem raw_blink_derating_counterexample :
    limit_current 255 20 = 20 ∧
    led_total_br { State.init (fun _ => 0) (fun _ => false) with brightness_ratio_r := 150 }
      20 0 0 = 30 ∧
    led_max_br { State.init (fun _ => 0) (fun _ => false) with brightness_ratio_r := 150 }
      = 30 ∧
    ¬ (led_total_br { State.init (fun _ => 0) (fun _ => false) with brightness_ratio_r := 150 }
        20 0 0 >
      led_max_br { State.init (fun _ => 0) (fun _ => false) with brightness_ratio_r := 150 }) ∧
    blink_brightness { State.init (fun _ => 0) (fun _ => false) with brightness_ratio_r := 150 }
      0xFF0000 = (20, 0, 0) := by
  decide

/-- C10, amended: for 0xFF0000, `normal_powermode_current` 20, Red ratio 150 and
Green and Blue ratios at most 150, the limited Red is 20, the weighted total 30
equals `led_max_br` 30, so the derating branch is not taken and Red stays 20
(nonzero, at most `led_max_br`); on a transport that succeeds the handler
returns with Red blinking at register brightness 30 and Green and Blue
disabled. -/
theorem raw_blink_red_not_derated (s : State) (delay_on_time delay_off_time : Int)
    (hcur : s.normal_powermode_current = 20)
    (hr : s.brightness_ratio_r = 150)
    (hg : s.brightness_ratio_g ≤ 150) (hb : s.brightness_ratio_b ≤ 150)
    (hio : io_ok s) :
    limit_current 255 s.normal_powermode_current = 20 ∧
    led_total_br s 20 0 0 = 30 ∧ led_max_br s = 30 ∧
    ¬ (led_total_br s 20 0 0 > led_max_br s) ∧
    derate s 20 0 0 = (20, 0, 0) ∧ 20 ≤ led_max_br s ∧
    ∃ t, store_max77843_rgb_blink s 0xFF0000 delay_on_time delay_off_time = some t ∧
      channel_state t RED = LED_BLINK ∧ channel_brightness t RED = 30 ∧
      channel_state t GREEN = LED_DISABLE ∧ channel_state t BLUE = LED_DISABLE := by
  have ht : ∀ u : State, u.brightness_ratio_r = 150 → led_total_br u 20 0 0 = 30 := by
    intro u h1
    simp [led_total_br, h1, U32]
  have hm : ∀ u : State, u.normal_powermode_current = 20 → u.brightness_ratio_r = 150 →
      u.brightness_ratio_g ≤ 150 → u.brightness_ratio_b ≤ 150 → led_max_br u = 30 := by
    intro u h1 h2 h3 h4
    unfold led_max_br
    rw [if_pos ⟨by omega, by omega⟩, h1, h2]
    decide
  have hd : ∀ u : State, u.normal_powermode_current = 20 → u.brightness_ratio_r = 150 →
      u.brightness_ratio_g ≤ 150 → u.brightness_ratio_b ≤ 150 →
      derate u 20 0 0 = (20, 0, 0) := by
    intro u h1 h2 h3 h4
    simp [derate, ht u h2, hm u h1 h2 h3 h4]
  refine ⟨by rw [hcur]; decide, ht s hr, hm s hcur hr hg hb,
    by rw [ht s hr, hm s hcur hr hg hb]; decide, hd s hcur hr hg hb,
    by rw [hm s hcur hr hg hb]; decide, ?_⟩
  simp only [store_max77843_rgb_blink]
  have hu : io_ok { s with led_dynamic_current := s.normal_powermode_current } := hio
  generalize hudef : ({ s with led_dynamic_current := s.normal_powermode_current } : State) = u
    at hu
  have hucur : u.normal_powermode_current = 20 := by rw [← hudef]; exact hcur
  have hudc : u.led_dynamic_current = 20 := by rw [← hudef]; exact hcur
  have hur : u.brightness_ratio_r = 150 := by rw [← hudef]; exact hr
  have hug : u.brightness_ratio_g ≤ 150 := by rw [← hudef]; exact hg
  have hub : u.brightness_ratio_b ≤ 150 := by rw [← hudef]; exact hb
  obtain ⟨r1, c1, e1, -, fg, fb, -, -, -⟩ := reset_ok u hu
  have hbb : blink_brightness (u.withRegs r1 c1) 0xFF0000 = (20, 0, 0) := by
    have e : blink_brightness (u.withRegs r1 c1) 0xFF0000
        = derate u (limit_current 255 u.led_dynamic_current)
            (limit_current 0 u.led_dynamic_current)
            (limit_current 0 u.led_dynamic_current) := rfl
    rw [e, hudc]
    exact hd u hucur hur hug hub
  obtain ⟨r2, c2, e2, f2, o2, b2, -, k2⟩ :=
    set_state_ok (u.withRegs r1 c1) ((io_ok_withRegs u r1 c1).2 hu) RED 20 LED_BLINK
      (by decide) (by decide)
  simp only [withRegs_withRegs, withRegs_regs, scale_brightness_withRegs] at e2 o2 b2 k2
  have hsc : scale_brightness u RED 20 = 30 := by
    simp [scale_brightness, RED, hur, U32]
  have h20 : ((20 : Nat) ≠ 0) = True := by simp
  have h00 : ((0 : Nat) ≠ 0) = False := by simp
  have hle : MAX77843_RGBLED_REG_LEDEN ≠ MAX77843_RGBLED_REG_LEDBLNK := by decide
  have hlr : MAX77843_RGBLED_REG_LEDEN ≠ MAX77843_RGBLED_REG_LEDRMP := by decide
  have hbe : MAX77843_RGBLED_REG_LED0BRT + RED ≠ MAX77843_RGBLED_REG_LEDBLNK := by decide
  have hbr : MAX77843_RGBLED_REG_LED0BRT + RED ≠ MAX77843_RGBLED_REG_LEDRMP := by decide
  rw [e1]
  simp only [hbb, h20, h00, if_true, if_false, e2, withRegs_led_enable_fade,
    withRegs_led_fade_time_up, withRegs_led_fade_time_down]
  have hred : enable_field (r2 MAX77843_RGBLED_REG_LEDEN % 256) RED = LED_BLINK := f2
  have hgreen : enable_field (r2 MAX77843_RGBLED_REG_LEDEN % 256) GREEN = LED_DISABLE := by
    rw [o2 GREEN (by decide) (by decide)]; exact fg
  have hblue : enable_field (r2 MAX77843_RGBLED_REG_LEDEN % 256) BLUE = LED_DISABLE := by
    rw [o2 BLUE (by decide) (by decide)]; exact fb
  have hbrt : r2 (MAX77843_RGBLED_REG_LED0BRT + RED) = 30 := by
    rw [b2 (by rw [hsc]; decide), hsc]
  by_cases hf : u.led_enable_fade ≠ 0 ∧ delay_on_time > 0
  · rw [if_pos hf, ramp_ok _ ((io_ok_withRegs u _ _).2 hu)]
    simp only [withRegs_withRegs, withRegs_regs, withRegs_io_count]
    rw [blink_ok _ ((io_ok_withRegs u _ _).2 hu)]
    refine ⟨_, rfl, ?_, ?_, ?_, ?_⟩ <;>
      simp only [channel_state, channel_brightness, withRegs_withRegs, withRegs_regs,
        Function.update_noteq hle, Function.update_noteq hlr, Function.update_noteq hbe,
        Function.update_noteq hbr, hred, hgreen, hblue, hbrt]
  · rw [if_neg hf, blink_ok _ ((io_ok_withRegs u _ _).2 hu)]
    refine ⟨_, rfl, ?_, ?_, ?_, ?_⟩ <;>
      simp only [channel_state, channel_brightness, withRegs_withRegs, withRegs_regs,
        Function.update_noteq hle, Function.update_noteq hbe, hred, hgreen, hblue, hbrt]

/-- Witness of the amended C10 on the initial state with Red ratio 150. -/
theorem raw_blink_red_not_derated_witness :
    ∃ t, store_max77843_rgb_blink
        { State.init (fun _ => 0) (fun _ => false) with brightness_ratio_r := 150 }
        0xFF0000 500 500 = some t ∧
      channel_state t RED = LED_BLINK ∧ channel_brightness t RED = 30 ∧
      channel_state t GREEN = LED_DISABLE ∧ channel_state t BLUE = LED_DISABLE :=
  (raw_blink_red_not_derated
    { State.init (fun _ => 0) (fun _ => false) with brightness_ratio_r := 150 }
    500 500 rfl rfl (by decide) (by decide) (fun _ => rfl)).2.2.2.2.2.2

/-- C2, counterexample: with ceiling 1, ratios (200,200,200) and components
(1,1,1) the derating floors every channel to 1; the weighted sum is then 6,
above `1 * 200 / 100 + 3 = 5`. -/
theorem derate_ceiling_counterexample :
    derate { State.init (fun _ => 0) (fun _ => false) with
        normal_powermode_current := 1, brightness_ratio_r := 200,
        brightness_ratio_g := 200, brightness_ratio_b := 200 } 1 1 1 = (1, 1, 1) ∧
    ¬ (1 * 200 / 100 + 1 * 200 / 100 + 1 * 200 / 100 ≤ 1 * max 200 (max 200 200) / 100 + 3) := by
  decide

/-- C2, amended: for a ceiling in 0..255, components in 1..255 and ratios in
1..1000 the derated brightnesses, with or without the workaround, satisfy
`r*ratio_r/100 + g*ratio_g/100 + b*ratio_b/100 <= ceiling*max_ratio/100 +
3 * max(1, max_ratio/100)`: one brightness step per channel, weighted by the
largest ratio. For ratios up to 199 this is the bound `+ 3`. -/
theorem derate_ceiling (s : State) (r g b : Nat)
    (hc : s.normal_powermode_current ≤ 255)
    (hr : 1 ≤ r ∧ r ≤ 255) (hg : 1 ≤ g ∧ g ≤ 255) (hb : 1 ≤ b ∧ b ≤ 255)
    (hrr : 1 ≤ s.brightness_ratio_r ∧ s.brightness_ratio_r ≤ 1000)
    (hrg : 1 ≤ s.brightness_ratio_g ∧ s.brightness_ratio_g ≤ 1000)
    (hrb : 1 ≤ s.brightness_ratio_b ∧ s.brightness_ratio_b ≤ 1000) :
    (derate s r g b).1 * s.brightness_ratio_r / 100
        + (derate s r g b).2.1 * s.brightness_ratio_g / 100
        + (derate s r g b).2.2 * s.brightness_ratio_b / 100
      ≤ s.normal_powermode_current *
          max s.brightness_ratio_r (max s.brightness_ratio_g s.brightness_ratio_b) / 100
        + 3 * max 1
          (max s.brightness_ratio_r (max s.brightness_ratio_g s.brightness_ratio_b) / 100) ∧
    (max s.brightness_ratio_r (max s.brightness_ratio_g s.brightness_ratio_b) ≤ 199 →
      (derate s r g b).1 * s.brightness_ratio_r / 100
        + (derate s r g b).2.1 * s.brightness_ratio_g / 100
        + (derate s r g b).2.2 * s.brightness_ratio_b / 100
      ≤ s.normal_powermode_current *
          max s.brightness_ratio_r (max s.brightness_ratio_g s.brightness_ratio_b) / 100
        + 3) := by
  have hM := led_max_br_eq s hc hrr.2 hrg.2 hrb.2
  have hTeq := led_total_br_eq s r g b hr.2 hg.2 hb.2 hrr.2 hrg.2 hrb.2
  generalize hR : max s.brightness_ratio_r (max s.brightness_ratio_g s.brightness_ratio_b) = R
    at hM ⊢
  have hRr : s.brightness_ratio_r ≤ R := by omega
  have hRg : s.brightness_ratio_g ≤ R := by omega
  have hRb : s.brightness_ratio_b ≤ R := by omega
  have hR1000 : R ≤ 1000 := by omega
  generalize hE : max 1 (R / 100) = E
  have hE1 : 1 ≤ E := by omega
  have hEr : s.brightness_ratio_r / 100 ≤ E := by omega
  have hEg : s.brightness_ratio_g / 100 ≤ E := by omega
  have hEb : s.brightness_ratio_b / 100 ≤ E := by omega
  have hM2550 : led_max_br s ≤ 2550 := by
    have : s.normal_powermode_current * R ≤ 255 * 1000 := Nat.mul_le_mul hc hR1000
    omega
  have main : (derate s r g b).1 * s.brightness_ratio_r / 100
        + (derate s r g b).2.1 * s.brightness_ratio_g / 100
        + (derate s r g b).2.2 * s.brightness_ratio_b / 100
      ≤ s.normal_powermode_current * R / 100 + 3 * E := by
    rw [← hM]
    by_cases hT : led_total_br s r g b > led_max_br s
    · -- the derating branch: every channel is 1 or at most its share
      have key : ∀ x y z,
          (x = 1 ∨ x ≤ r * led_max_br s / led_total_br s r g b) →
          (y = 1 ∨ y ≤ g * led_max_br s / led_total_br s r g b) →
          (z = 1 ∨ z ≤ b * led_max_br s / led_total_br s r g b) →
          x * s.brightness_ratio_r / 100 + y * s.brightness_ratio_g / 100
            + z * s.brightness_ratio_b / 100 ≤ led_max_br s + 3 * E := by
        intro x y z hx hy hz
        have bx := derate_channel_bound r s.brightness_ratio_r (led_max_br s)
          (led_total_br s r g b) E x hT hx hEr hE1
        have by1 := derate_channel_bound g s.brightness_ratio_g (led_max_br s)
          (led_total_br s r g b) E y hT hy hEg hE1
        have bz := derate_channel_bound b s.brightness_ratio_b (led_max_br s)
          (led_total_br s r g b) E z hT hz hEb hE1
        have hpos : 0 < led_total_br s r g b := by omega
        apply Nat.le_of_mul_le_mul_right _ hpos
        have hsum : (r * s.brightness_ratio_r / 100 + g * s.brightness_ratio_g / 100
            + b * s.brightness_ratio_b / 100) * led_max_br s
            = led_total_br s r g b * led_max_br s := by rw [hTeq]
        nlinarith
      have pl : ∀ c, c ≤ 255 → (derate_plain c (led_max_br s) (led_total_br s r g b) = 1 ∨
          derate_plain c (led_max_br s) (led_total_br s r g b)
            ≤ c * led_max_br s / led_total_br s r g b) := by
        intro c hc255
        rcases derate_plain_cases c (led_max_br s) (led_total_br s r g b) hc255 hM2550 hT
          with h | h | h
        · exact Or.inr (le_of_eq h.1)
        · exact Or.inl h
        · exact Or.inr h
      have wa : ∀ c, c ≤ 255 → (derate_workaround c (led_max_br s) (led_total_br s r g b) = 1 ∨
          derate_workaround c (led_max_br s) (led_total_br s r g b)
            ≤ c * led_max_br s / led_total_br s r g b) := by
        intro c hc255
        rcases derate_workaround_cases c (led_max_br s) (led_total_br s r g b) hc255 hM2550 hT
          with h | h | h
        · exact Or.inr (le_of_eq h.1)
        · exact Or.inl h
        · exact Or.inr h
      unfold derate
      simp only [hT, if_true]
      split_ifs
      · exact key _ _ _ (wa r hr.2) (wa g hg.2) (pl b hb.2)
      · exact key _ _ _ (pl r hr.2) (pl g hg.2) (pl b hb.2)
    · -- no derating: the sum is the total, which is within the ceiling
      have hd : derate s r g b = (r, g, b) := by
        unfold derate
        simp only [hT, if_false, ite_self]
      rw [hd]
      simp only []
      rw [← hTeq]
      omega
  refine ⟨main, ?_⟩
  intro h199
  have : E = 1 := by omega
  omega

/-- Witness of the amended C2 on the input of the counterexample: the weighted
sum 6 is within `2 + 3 * 2`. -/
theorem derate_ceiling_witness :
    (derate { State.init (fun _ => 0) (fun _ => false) with
        normal_powermode_current := 1, brightness_ratio_r := 200,
        brightness_ratio_g := 200, brightness_ratio_b := 200 } 1 1 1).1 * 200 / 100
      + (derate { State.init (fun _ => 0) (fun _ => false) with
        normal_powermode_current := 1, brightness_ratio_r := 200,
        brightness_ratio_g := 200, brightness_ratio_b := 200 } 1 1 1).2.1 * 200 / 100
      + (derate { State.init (fun _ => 0) (fun _ => false) with
        normal_powermode_current := 1, brightness_ratio_r := 200,
        brightness_ratio_g := 200, brightness_ratio_b := 200 } 1 1 1).2.2 * 200 / 100
      ≤ 1 * max 200 (max 200 200) / 100 + 3 * max 1 (max 200 (max 200 200) / 100) :=
  (derate_ceiling { State.init (fun _ => 0) (fun _ => false) with
      normal_powermode_current := 1, brightness_ratio_r := 200,
      brightness_ratio_g := 200, brightness_ratio_b := 200 } 1 1 1
    (by decide) (by decide) (by decide) (by decide) (by decide) (by decide) (by decide)).1

/-! ## Helper lemmas: what a handler may change -/

theorem frame_trans {s t u : State} (h1 : ∃ r c, t = s.withRegs r c)
    (h2 : ∃ r c, u = t.withRegs r c) : ∃ r c, u = s.withRegs r c := by
  obtain ⟨r1, c1, e1⟩ := h1
  obtain ⟨r2, c2, e2⟩ := h2
  exact ⟨r2, c2, by rw [e2, e1]; rfl⟩

theorem write_reg_frame (s : State) (reg value : Nat) :
    ∃ r c, (max77843_write_reg s reg value).1 = s.withRegs r c := by
  unfold max77843_write_reg
  split_ifs
  · exact ⟨_, _, rfl⟩
  · exact ⟨_, _, rfl⟩

theorem update_reg_frame (s : State) (reg value mask : Nat) :
    ∃ r c, (max77843_update_reg s reg value mask).1 = s.withRegs r c := by
  unfold max77843_update_reg
  split_ifs
  · exact ⟨_, _, rfl⟩
  · exact ⟨_, _, rfl⟩

theorem set_frame (s : State) (led_cdev brightness : Nat) :
    ∃ r c, max77843_rgb_set s led_cdev brightness = s.withRegs r c := by
  unfold max77843_rgb_set
  cases max77843_rgb_number led_cdev with
  | none => exact ⟨_, _, rfl⟩
  | some n =>
    simp only []
    split_ifs
    · exact update_reg_frame _ _ _ _
    · exact write_reg_frame _ _ _
    · exact frame_trans (write_reg_frame _ _ _) (update_reg_frame _ _ _ _)

theorem set_state_frame (s : State) (led_cdev brightness led_state : Nat) :
    ∃ r c, max77843_rgb_set_state s led_cdev brightness led_state = s.withRegs r c := by
  unfold max77843_rgb_set_state
  cases max77843_rgb_number led_cdev with
  | none => exact ⟨_, _, rfl⟩
  | some n => exact frame_trans (set_frame _ _ _) (update_reg_frame _ _ _ _)

theorem ramp_frame (s : State) (ramp_up ramp_down : Nat) :
    ∃ r c, (max77843_rgb_ramp s ramp_up ramp_down).1 = s.withRegs r c := by
  unfold max77843_rgb_ramp
  simp only []
  split_ifs
  · exact write_reg_frame _ _ _
  · exact write_reg_frame _ _ _

theorem blink_frame (s : State) (delay_on delay_off : Nat) :
    ∃ r c, (max77843_rgb_blink s delay_on delay_off).1 = s.withRegs r c := by
  unfold max77843_rgb_blink
  simp only []
  split_ifs
  · exact write_reg_frame _ _ _
  · exact write_reg_frame _ _ _

theorem reset_frame (s : State) :
    ∃ r c, max77843_rgb_reset (some ()) s = some (s.withRegs r c) := by
  obtain ⟨r, c, e⟩ := frame_trans (frame_trans (frame_trans
    (set_state_frame s RED LED_OFF LED_DISABLE)
    (set_state_frame _ GREEN LED_OFF LED_DISABLE))
    (set_state_frame _ BLUE LED_OFF LED_DISABLE))
    (ramp_frame _ 0 0)
  exact ⟨r, c, by simp only [max77843_rgb_reset]; rw [e]⟩

theorem check_restrictions_frame (now : Clock) (s : State)
    (h : s.led_always_disable = 0 ∨ s.GBLdev ≠ none) :
    ∃ v r c, check_restrictions now s = some (v, s.withRegs r c) := by
  obtain ⟨r, c, e⟩ := reset_frame s
  unfold check_restrictions
  simp only []
  split_ifs with h1 h2 h3
  · rcases h with h | h
    · exact absurd h h1
    · cases hg : s.GBLdev with
      | none => exact absurd hg h
      | some u => exact ⟨false, r, c, by rw [e]; rfl⟩
  · cases hg : s.GBLdev with
    | none => exact absurd hg h3.2
    | some u => exact ⟨_, r, c, by rw [e]; rfl⟩
  · exact ⟨_, s.regs, s.io_count, rfl⟩
  · exact ⟨_, s.regs, s.io_count, rfl⟩

theorem frame_refl (s : State) : ∃ r c, s = s.withRegs r c := ⟨s.regs, s.io_count, rfl⟩

theorem pattern_switch_frame (s : State) (mode : Nat) :
    ∃ r c, pattern_switch s mode = s.withRegs r c := by
  unfold pattern_switch
  simp only []
  split_ifs
  all_goals first
    | exact frame_refl _
    | exact set_state_frame _ _ _ _
    | exact frame_trans (blink_frame _ _ _) (set_state_frame _ _ _ _)
    | exact frame_trans (frame_trans (ramp_frame _ _ _) (blink_frame _ _ _))
        (set_state_frame _ _ _ _)
    | exact frame_trans (frame_trans (frame_trans (ramp_frame _ _ _) (blink_frame _ _ _))
        (set_state_frame _ _ _ _)) (set_state_frame _ _ _ _)

/-- Shape of the state after `store_max77843_rgb_pattern`: it always returns,
and besides registers it assigns only `GBLdev` and `led_dynamic_current`. -/
theorem pattern_shape (now : Clock) (s : State) (mode : Nat) :
    ∃ r c d, store_max77843_rgb_pattern now s mode
      = some ((s.withGlobals d s.delay_on_times_ms s.delay_off_times_ms (some ())).withRegs
          r c) := by
  obtain ⟨r1, c1, e1⟩ := reset_frame { s with GBLdev := some () }
  unfold store_max77843_rgb_pattern
  simp only [e1]
  by_cases hm : mode = PATTERN_OFF
  · rw [if_pos hm]
    exact ⟨r1, c1, s.led_dynamic_current, rfl⟩
  · rw [if_neg hm]
    obtain ⟨v, r2, c2, e2⟩ := check_restrictions_frame now
      (({ s with GBLdev := some () } : State).withRegs r1 c1) (Or.inr (by simp))
    rw [e2]
    cases v with
    | false => exact ⟨r2, c2, s.led_dynamic_current, rfl⟩
    | true =>
      obtain ⟨r3, c3, e3⟩ := pattern_switch_frame
        { (({ s with GBLdev := some () } : State).withRegs r1 c1).withRegs r2 c2 with
          led_dynamic_current :=
            if s.led_lowpower_mode = 1 then s.low_powermode_current
            else s.normal_powermode_current } mode
      exact ⟨r3, c3, if s.led_lowpower_mode = 1 then s.low_powermode_current
        else s.normal_powermode_current, congrArg some e3⟩

theorem frame_some {s u : State} (h : ∃ r c, u = s.withRegs r c) :
    ∃ r c, some u = some (s.withRegs r c) := by
  obtain ⟨r, c, e⟩ := h
  exact ⟨r, c, congrArg some e⟩

theorem frame_step_ite {s m a : State} (p : Prop) [Decidable p]
    (hm : ∃ r c, m = s.withRegs r c) (ha : ∃ r c, a = m.withRegs r c) :
    ∃ r c, (if p then a else m) = s.withRegs r c := by
  split_ifs
  · exact frame_trans hm ha
  · exact hm

/-- Shape of the state after `store_max77843_rgb_blink`: it always returns, and
besides registers it assigns only `led_dynamic_current`. -/
theorem raw_blink_shape (s : State) (led_brightness : Nat) (delay_on_time delay_off_time : Int) :
    ∃ r c, store_max77843_rgb_blink s led_brightness delay_on_time delay_off_time
      = some ((s.withGlobals s.normal_powermode_current s.delay_on_times_ms
          s.delay_off_times_ms s.GBLdev).withRegs r c) := by
  obtain ⟨r1, c1, e1⟩ := reset_frame { s with led_dynamic_current := s.normal_powermode_current }
  unfold store_max77843_rgb_blink
  simp only [e1]
  refine frame_some ?_
  refine frame_trans ?_ (blink_frame _ _ _)
  refine frame_step_ite _ ?_ (ramp_frame _ _ _)
  refine frame_step_ite _ ?_ (set_state_frame _ _ _ _)
  refine frame_step_ite _ ?_ (set_state_frame _ _ _ _)
  refine frame_step_ite _ ?_ (set_state_frame _ _ _ _)
  exact ⟨r1, c1, rfl⟩

/-- Shape of the state after `store_led_r`, `store_led_g` and `store_led_b`:
only registers change. -/
theorem store_led_shape (s : State) (v : Option Nat) (count : Nat) :
    (∃ r c, (store_led_r s v count).1 = s.withRegs r c) ∧
    (∃ r c, (store_led_g s v count).1 = s.withRegs r c) ∧
    (∃ r c, (store_led_b s v count).1 = s.withRegs r c) := by
  refine ⟨?_, ?_, ?_⟩
  · unfold store_led_r
    cases v with
    | none => exact frame_refl s
    | some x =>
      dsimp only
      split_ifs <;> (dsimp only; exact set_state_frame s _ _ _)
  · unfold store_led_g
    cases v with
    | none => exact frame_refl s
    | some x =>
      dsimp only
      split_ifs <;> (dsimp only; exact set_state_frame s _ _ _)
  · unfold store_led_b
    cases v with
    | none => exact frame_refl s
    | some x =>
      dsimp only
      split_ifs <;> (dsimp only; exact set_state_frame s _ _ _)

/-- Shape of the state after `led_blink_store`: besides registers it assigns
only the two blink delays. -/
theorem led_blink_shape (s : State) (led_cdev : Nat) (v : Option Nat) (count : Nat) :
    ∃ r c a b, (led_blink_store s led_cdev v count).1
      = (s.withGlobals s.led_dynamic_current a b s.GBLdev).withRegs r c := by
  unfold led_blink_store
  cases v with
  | none => exact ⟨s.regs, s.io_count, s.delay_on_times_ms, s.delay_off_times_ms, rfl⟩
  | some x =>
    simp only []
    by_cases hx : x = 0
    · simp only [hx, if_true]
      obtain ⟨r, c, e⟩ := frame_trans (blink_frame
        { s with delay_on_times_ms := LED_OFF, delay_off_times_ms := LED_OFF } LED_OFF LED_OFF)
        (set_state_frame _ led_cdev (max77843_rgb_blink
          { s with delay_on_times_ms := LED_OFF, delay_off_times_ms := LED_OFF }
          LED_OFF LED_OFF).1.led_dynamic_current LED_BLINK)
      exact ⟨r, c, LED_OFF, LED_OFF, e⟩
    · simp only [hx, if_false]
      obtain ⟨r, c, e⟩ := frame_trans (blink_frame s s.delay_on_times_ms s.delay_off_times_ms)
        (set_state_frame _ led_cdev (max77843_rgb_blink s s.delay_on_times_ms
          s.delay_off_times_ms).1.led_dynamic_current LED_BLINK)
      exact ⟨r, c, s.delay_on_times_ms, s.delay_off_times_ms, e⟩

theorem toU32_of_range (x : Int) (h0 : 0 ≤ x) (h1 : x < 4294967296) : toU32 x = x.toNat := by
  unfold toU32
  rw [Int.emod_eq_of_lt h0 h1]

/-- An invariant that every handler keeps holds after every sequence of
commands, and every sequence is handled to its end. -/
theorem run_invariant (P : State → Prop)
    (hP : ∀ now count s c, P s → ∃ t, handle now count s c = some t ∧ P t) :
    ∀ (cmds : List (Clock × Nat × Command)) (s : State), P s →
      ∃ t, run s cmds = some t ∧ P t := by
  intro cmds
  induction cmds with
  | nil => intro s hs; exact ⟨s, rfl, hs⟩
  | cons x rest ih =>
    intro s hs
    obtain ⟨now, count, c⟩ := x
    obtain ⟨t, e, ht⟩ := hP now count s c hs
    obtain ⟨u, eu, hu⟩ := ih t ht
    exact ⟨u, by simp only [run, e]; exact eu, hu⟩

theorem arm_check_led_time_config (s : State) :
    config_wf (arm_check_led_time s) ↔ config_wf s := by
  unfold arm_check_led_time
  split_ifs <;> exact Iff.rfl

theorem arm_check_led_time_armed (s : State) :
    ((arm_check_led_time s).is_work_active = true ↔
      ((arm_check_led_time s).led_block_leds_time_start ≠ -1 ∧
        (arm_check_led_time s).led_block_leds_time_stop ≠ -1)) := by
  unfold arm_check_led_time
  split_ifs with h1 h2
  · exact ⟨fun _ => h1.2, fun _ => rfl⟩
  · constructor
    · intro h; exact absurd h (by simp)
    · intro h
      rcases h2 with h2 | h2
      · exact absurd h2 h.1
      · exact absurd h2 h.2
  · have hb : s.led_block_leds_time_start ≠ -1 ∧ s.led_block_leds_time_stop ≠ -1 := by
      constructor
      · intro h; exact h2 (Or.inl h)
      · intro h; exact h2 (Or.inr h)
    constructor
    · intro _; exact hb
    · intro _
      by_contra hn
      exact h1 ⟨hn, hb⟩

/-- Every handler keeps the configuration well-formed. -/
theorem handle_config_wf (now : Clock) (count : Nat) (s : State) (c : Command)
    (h : config_wf s) : ∃ t, handle now count s c = some t ∧ config_wf t := by
  cases c with
  | SetPattern mode =>
    obtain ⟨r, k, d, e⟩ := pattern_shape now s mode
    exact ⟨_, e, h⟩
  | SetRawBlink lb d_on d_off =>
    obtain ⟨r, k, e⟩ := raw_blink_shape s lb d_on d_off
    exact ⟨_, e, h⟩
  | SetLedR v =>
    obtain ⟨r, k, e⟩ := (store_led_shape s v count).1
    exact ⟨_, congrArg some e, h⟩
  | SetLedG v =>
    obtain ⟨r, k, e⟩ := (store_led_shape s v count).2.1
    exact ⟨_, congrArg some e, h⟩
  | SetLedB v =>
    obtain ⟨r, k, e⟩ := (store_led_shape s v count).2.2
    exact ⟨_, congrArg some e, h⟩
  | SetBlink led v =>
    obtain ⟨r, k, a, b, e⟩ := led_blink_shape s led v count
    exact ⟨_, congrArg some e, h⟩
  | SetLowPowerMode v => cases v <;> exact ⟨_, rfl, h⟩
  | SetGlobalBrightnessCeiling v => cases v <;> exact ⟨_, rfl, h⟩
  | SetDelayOn v => cases v <;> exact ⟨_, rfl, h⟩
  | SetDelayOff v => cases v <;> exact ⟨_, rfl, h⟩
  | SetDebugEnable v =>
    refine ⟨_, rfl, ?_⟩
    cases v with
    | none => exact h
    | some x => simp only [led_debug_enable_store]; split_ifs <;> exact h
  | SetFadeEnabled v =>
    refine ⟨_, rfl, ?_⟩
    cases v with
    | none => exact h
    | some x =>
      simp only [led_fade_store]
      split_ifs with hx
      · obtain ⟨h1, h2, -, h4, h5, h6⟩ := h
        refine ⟨h1, h2, ?_, h4, h5, h6⟩
        rcases hx with hx | hx <;> subst hx
        · left; rfl
        · right; rfl
      · exact h
  | SetAlwaysDisable v =>
    refine ⟨_, rfl, ?_⟩
    cases v with
    | none => exact h
    | some x =>
      simp only [led_always_disable_store]
      split_ifs with hx
      · obtain ⟨h1, h2, h3, -, h5, h6⟩ := h
        refine ⟨h1, h2, h3, ?_, h5, h6⟩
        rcases hx with hx | hx <;> subst hx
        · left; rfl
        · right; rfl
      · exact h
  | SetFadeTimeUp v =>
    refine ⟨_, rfl, ?_⟩
    cases v with
    | none => exact h
    | some x =>
      simp only [led_fade_time_up_store]
      split_ifs with hx
      · obtain ⟨-, h2, h3, h4, h5, h6⟩ := h
        refine ⟨?_, h2, h3, h4, h5, h6⟩
        show 100 ≤ toU32 x ∧ toU32 x ≤ 4000
        rw [toU32_of_range x (by omega) (by omega)]
        omega
      · exact h
  | SetFadeTimeDown v =>
    refine ⟨_, rfl, ?_⟩
    cases v with
    | none => exact h
    | some x =>
      simp only [led_fade_time_down_store]
      split_ifs with hx
      · obtain ⟨h1, -, h3, h4, h5, h6⟩ := h
        refine ⟨h1, ?_, h3, h4, h5, h6⟩
        show 100 ≤ toU32 x ∧ toU32 x ≤ 4000
        rw [toU32_of_range x (by omega) (by omega)]
        omega
      · exact h
  | SetBlockStart v =>
    refine ⟨_, rfl, ?_⟩
    simp only [led_block_leds_time_start_store]
    rw [arm_check_led_time_config]
    cases v with
    | none => exact h
    | some x =>
      simp only []
      split_ifs with hx
      · obtain ⟨h1, h2, h3, h4, -, h6⟩ := h
        exact ⟨h1, h2, h3, h4, hx, h6⟩
      · exact h
  | SetBlockStop v =>
    refine ⟨_, rfl, ?_⟩
    simp only [led_block_leds_time_stop_store]
    rw [arm_check_led_time_config]
    cases v with
    | none => exact h
    | some x =>
      simp only []
      split_ifs with hx
      · obtain ⟨h1, h2, h3, h4, h5, -⟩ := h
        exact ⟨h1, h2, h3, h4, h5, hx⟩
      · exact h

/-- Every handler keeps `is_work_active` equivalent to both bounds being set. -/
theorem handle_armed (now : Clock) (count : Nat) (s : State) (c : Command)
    (h : s.is_work_active = true ↔
      (s.led_block_leds_time_start ≠ -1 ∧ s.led_block_leds_time_stop ≠ -1)) :
    ∃ t, handle now count s c = some t ∧
      (t.is_work_active = true ↔
        (t.led_block_leds_time_start ≠ -1 ∧ t.led_block_leds_time_stop ≠ -1)) := by
  cases c with
  | SetPattern mode =>
    obtain ⟨r, k, d, e⟩ := pattern_shape now s mode
    exact ⟨_, e, h⟩
  | SetRawBlink lb d_on d_off =>
    obtain ⟨r, k, e⟩ := raw_blink_shape s lb d_on d_off
    exact ⟨_, e, h⟩
  | SetLedR v =>
    obtain ⟨r, k, e⟩ := (store_led_shape s v count).1
    exact ⟨_, congrArg some e, h⟩
  | SetLedG v =>
    obtain ⟨r, k, e⟩ := (store_led_shape s v count).2.1
    exact ⟨_, congrArg some e, h⟩
  | SetLedB v =>
    obtain ⟨r, k, e⟩ := (store_led_shape s v count).2.2
    exact ⟨_, congrArg some e, h⟩
  | SetBlink led v =>
    obtain ⟨r, k, a, b, e⟩ := led_blink_shape s led v count
    exact ⟨_, congrArg some e, h⟩
  | SetLowPowerMode v => cases v <;> exact ⟨_, rfl, h⟩
  | SetGlobalBrightnessCeiling v => cases v <;> exact ⟨_, rfl, h⟩
  | SetDelayOn v => cases v <;> exact ⟨_, rfl, h⟩
  | SetDelayOff v => cases v <;> exact ⟨_, rfl, h⟩
  | SetDebugEnable v =>
    refine ⟨_, rfl, ?_⟩
    cases v with
    | none => exact h
    | some x => simp only [led_debug_enable_store]; split_ifs <;> exact h
  | SetFadeEnabled v =>
    refine ⟨_, rfl, ?_⟩
    cases v with
    | none => exact h
    | some x => simp only [led_fade_store]; split_ifs <;> exact h
  | SetAlwaysDisable v =>
    refine ⟨_, rfl, ?_⟩
    cases v with
    | none => exact h
    | some x => simp only [led_always_disable_store]; split_ifs <;> exact h
  | SetFadeTimeUp v =>
    refine ⟨_, rfl, ?_⟩
    cases v with
    | none => exact h
    | some x => simp only [led_fade_time_up_store]; split_ifs <;> exact h
  | SetFadeTimeDown v =>
    refine ⟨_, rfl, ?_⟩
    cases v with
    | none => exact h
    | some x => simp only [led_fade_time_down_store]; split_ifs <;> exact h
  | SetBlockStart v => exact ⟨_, rfl, arm_check_led_time_armed _⟩
  | SetBlockStop v => exact ⟨_, rfl, arm_check_led_time_armed _⟩

/-! ## Helper lemmas: the derating statements -/

theorem derate_plain_checked_eq (c max_br total_br : Nat) (h : total_br ≠ 0) :
    derate_plain_checked c max_br total_br = some (derate_plain c max_br total_br) := by
  unfold derate_plain_checked derate_plain udiv
  split_ifs <;> rfl

theorem derate_workaround_checked_eq (c max_br total_br : Nat) (h : total_br ≠ 0) :
    derate_workaround_checked c max_br total_br
      = some (derate_workaround c max_br total_br) := by
  unfold derate_workaround_checked derate_workaround udiv
  split_ifs <;> rfl

theorem derate_plain_ne_zero (c max_br total_br : Nat) (h : c ≠ 0) :
    derate_plain c max_br total_br ≠ 0 := by
  unfold derate_plain
  simp only [ne_eq, h, not_false_eq_true, if_true]
  split_ifs with h0
  · decide
  · exact h0

theorem derate_workaround_ne_zero (c max_br total_br : Nat) (h : c ≠ 0) :
    derate_workaround c max_br total_br ≠ 0 := by
  unfold derate_workaround
  simp only [ne_eq, h, not_false_eq_true, if_true]
  split_ifs with h0
  · decide
  · exact h0

theorem limit_current_ne_zero (c current : Nat) (h : c ≠ 0) : limit_current c current ≠ 0 := by
  unfold limit_current
  simp only [ne_eq, h, not_false_eq_true, if_true]
  split_ifs with h0
  · decide
  · exact h0

/-- Nonzero components stay nonzero through the derating step. -/
theorem derate_ne_zero (s : State) (r g b : Nat) :
    (r ≠ 0 → (derate s r g b).1 ≠ 0) ∧ (g ≠ 0 → (derate s r g b).2.1 ≠ 0) ∧
      (b ≠ 0 → (derate s r g b).2.2 ≠ 0) := by
  unfold derate
  simp only []
  split_ifs
  · exact ⟨derate_workaround_ne_zero _ _ _, derate_workaround_ne_zero _ _ _,
      derate_plain_ne_zero _ _ _⟩
  · exact ⟨id, id, id⟩
  · exact ⟨derate_plain_ne_zero _ _ _, derate_plain_ne_zero _ _ _,
      derate_plain_ne_zero _ _ _⟩
  · exact ⟨id, id, id⟩

/-- The value of a plain rescaling statement, without wrap. -/
theorem derate_plain_eq (c M T : Nat) (hc : c ≤ 255) (hM : M ≤ 2550) (hT : M < T) :
    derate_plain c M T = if c = 0 then 0 else max 1 (c * M / T) := by
  have hcM : c * M < U32 := by
    have : c * M ≤ 255 * 2550 := Nat.mul_le_mul hc hM
    unfold U32; omega
  have hq : c * M / T ≤ c := by
    apply Nat.div_le_of_le_mul
    calc c * M ≤ c * T := Nat.mul_le_mul_left c (le_of_lt hT)
      _ = T * c := Nat.mul_comm _ _
  have hq256 : c * M / T < 256 := by omega
  unfold derate_plain
  by_cases h0 : c = 0
  · simp [h0]
  · simp only [ne_eq, h0, not_false_eq_true, if_true, Nat.mod_eq_of_lt hcM,
      Nat.mod_eq_of_lt hq256, if_false]
    split_ifs with hz
    · rw [hz]; rfl
    · exact (max_eq_right (Nat.pos_of_ne_zero hz)).symm

/-- The value of a workaround rescaling statement, without wrap. -/
theorem derate_workaround_eq (c M T : Nat) (hc : c ≤ 255) (hM : M ≤ 2550) (hT : M < T) :
    derate_workaround c M T = if c = 0 then 0 else max 1 (c * M / T * 8 / 10) := by
  have hcM : c * M < U32 := by
    have : c * M ≤ 255 * 2550 := Nat.mul_le_mul hc hM
    unfold U32; omega
  have hq : c * M / T ≤ c := by
    apply Nat.div_le_of_le_mul
    calc c * M ≤ c * T := Nat.mul_le_mul_left c (le_of_lt hT)
      _ = T * c := Nat.mul_comm _ _
  have hq8 : c * M / T * 8 < U32 := by unfold U32; omega
  have hq256 : c * M / T * 8 / 10 < 256 := by omega
  unfold derate_workaround
  by_cases h0 : c = 0
  · simp [h0]
  · simp only [ne_eq, h0, not_false_eq_true, if_true, Nat.mod_eq_of_lt hcM,
      Nat.mod_eq_of_lt hq8, Nat.mod_eq_of_lt hq256, if_false]
    split_ifs with hz
    · rw [hz]; rfl
    · exact (max_eq_right (Nat.pos_of_ne_zero hz)).symm

/-! ## Helper lemmas: the raw blink handler on a transport that succeeds -/

theorem scale_brightness_ne_zero (s : State) (n b : Nat) (h : b ≠ 0) :
    scale_brightness s n b ≠ 0 := by
  unfold scale_brightness
  simp only [ne_eq, h, not_false_eq_true, if_true]
  split_ifs <;> first | exact not_false | exact one_ne_zero | assumption

/-- Effect of one guarded `max77843_rgb_set_state` of the raw blink handler
(`if (brightness) set_state(...)`) when no access fails. -/
theorem cond_set_state_ok (s : State) (h : io_ok s) (n b st : Nat) (hn : n < 4) (hst : st < 4) :
    ∃ r c, (if b ≠ 0 then max77843_rgb_set_state s n b st else s) = s.withRegs r c ∧
      enable_field (r MAX77843_RGBLED_REG_LEDEN % 256) n
        = (if b ≠ 0 then st else enable_field (s.regs MAX77843_RGBLED_REG_LEDEN % 256) n) ∧
      (∀ m, m < 4 → m ≠ n → enable_field (r MAX77843_RGBLED_REG_LEDEN % 256) m
        = enable_field (s.regs MAX77843_RGBLED_REG_LEDEN % 256) m) ∧
      (b ≠ 0 → r (MAX77843_RGBLED_REG_LED0BRT + n) = scale_brightness s n b % 256) ∧
      (∀ a, a ≠ MAX77843_RGBLED_REG_LEDEN → a ≠ MAX77843_RGBLED_REG_LED0BRT + n →
        r a = s.regs a) := by
  by_cases hb : b ≠ 0
  · obtain ⟨r, c, e, f, o, b1, -, k⟩ := set_state_ok s h n b st hn hst
    refine ⟨r, c, ?_, ?_, o, fun _ => b1 (scale_brightness_ne_zero s n b hb), k⟩
    · rw [if_pos hb, e]
    · rw [if_pos hb, f]
  · refine ⟨s.regs, s.io_count, ?_, ?_, fun _ _ _ => rfl, fun h1 => absurd h1 hb,
      fun _ _ _ => rfl⟩
    · rw [if_neg hb]; rfl
    · rw [if_neg hb]

/-- Effect of `store_max77843_rgb_blink` when no access fails: it returns; each
of Red, Green and Blue blinks when its derated brightness is not zero and is
disabled otherwise; the brightness register of a blinking channel holds its
derated brightness after the ratio scaling, as a byte. -/
theorem raw_blink_ok (s : State) (h : io_ok s) (led_brightness : Nat)
    (delay_on_time delay_off_time : Int) :
    ∃ t, store_max77843_rgb_blink s led_brightness delay_on_time delay_off_time = some t ∧
      channel_state t RED
        = (if (blink_brightness { s with led_dynamic_current := s.normal_powermode_current }
            led_brightness).1 ≠ 0 then LED_BLINK else LED_DISABLE) ∧
      channel_state t GREEN
        = (if (blink_brightness { s with led_dynamic_current := s.normal_powermode_current }
            led_brightness).2.1 ≠ 0 then LED_BLINK else LED_DISABLE) ∧
      channel_state t BLUE
        = (if (blink_brightness { s with led_dynamic_current := s.normal_powermode_current }
            led_brightness).2.2 ≠ 0 then LED_BLINK else LED_DISABLE) ∧
      ((blink_brightness { s with led_dynamic_current := s.normal_powermode_current }
          led_brightness).1 ≠ 0 →
        channel_brightness t RED = scale_brightness s RED
          (blink_brightness { s with led_dynamic_current := s.normal_powermode_current }
            led_brightness).1 % 256) ∧
      ((blink_brightness { s with led_dynamic_current := s.normal_powermode_current }
          led_brightness).2.1 ≠ 0 →
        channel_brightness t GREEN = scale_brightness s GREEN
          (blink_brightness { s with led_dynamic_current := s.normal_powermode_current }
            led_brightness).2.1 % 256) ∧
      ((blink_brightness { s with led_dynamic_current := s.normal_powermode_current }
          led_brightness).2.2 ≠ 0 →
        channel_brightness t BLUE = scale_brightness s BLUE
          (blink_brightness { s with led_dynamic_current := s.normal_powermode_current }
            led_brightness).2.2 % 256) := by
  have hu : io_ok { s with led_dynamic_current := s.normal_powermode_current } := h
  have hsc : ∀ n b, scale_brightness
      { s with led_dynamic_current := s.normal_powermode_current } n b
      = scale_brightness s n b := fun _ _ => rfl
  unfold store_max77843_rgb_blink
  generalize ({ s with led_dynamic_current := s.normal_powermode_current } : State) = u
    at hu hsc ⊢
  obtain ⟨r1, c1, e1, fr, fg, fb, -, -, -⟩ := reset_ok u hu
  have hbb : blink_brightness (u.withRegs r1 c1) led_brightness
      = blink_brightness u led_brightness := rfl
  simp only [e1, hbb]
  generalize blink_brightness u led_brightness = bb
  obtain ⟨r2, c2, e2, f2, o2, b2, k2⟩ :=
    cond_set_state_ok (u.withRegs r1 c1) ((io_ok_withRegs u r1 c1).2 hu) RED bb.1 LED_BLINK
      (by decide) (by decide)
  obtain ⟨r3, c3, e3, f3, o3, b3, k3⟩ :=
    cond_set_state_ok (u.withRegs r2 c2) ((io_ok_withRegs u r2 c2).2 hu) GREEN bb.2.1 LED_BLINK
      (by decide) (by decide)
  obtain ⟨r4, c4, e4, f4, o4, b4, k4⟩ :=
    cond_set_state_ok (u.withRegs r3 c3) ((io_ok_withRegs u r3 c3).2 hu) BLUE bb.2.2 LED_BLINK
      (by decide) (by decide)
  simp only [withRegs_withRegs, withRegs_regs, scale_brightness_withRegs, hsc]
    at e2 e3 e4 f2 f3 f4 o2 o3 o4 b2 b3 b4 k2 k3 k4
  simp only [e2, e3, e4, withRegs_led_enable_fade, withRegs_led_fade_time_up,
    withRegs_led_fade_time_down]
  have hle : MAX77843_RGBLED_REG_LEDEN ≠ MAX77843_RGBLED_REG_LEDBLNK := by decide
  have hlr : MAX77843_RGBLED_REG_LEDEN ≠ MAX77843_RGBLED_REG_LEDRMP := by decide
  have hbe : ∀ n, n < 4 → MAX77843_RGBLED_REG_LED0BRT + n ≠ MAX77843_RGBLED_REG_LEDBLNK := by
    intro n hn; unfold MAX77843_RGBLED_REG_LED0BRT MAX77843_RGBLED_REG_LEDBLNK; omega
  have hbr : ∀ n, n < 4 → MAX77843_RGBLED_REG_LED0BRT + n ≠ MAX77843_RGBLED_REG_LEDRMP := by
    intro n hn; unfold MAX77843_RGBLED_REG_LED0BRT MAX77843_RGBLED_REG_LEDRMP; omega
  have hred : enable_field (r4 MAX77843_RGBLED_REG_LEDEN % 256) RED
      = if bb.1 ≠ 0 then LED_BLINK else LED_DISABLE := by
    rw [o4 RED (by decide) (by decide), o3 RED (by decide) (by decide), f2, fr]; rfl
  have hgreen : enable_field (r4 MAX77843_RGBLED_REG_LEDEN % 256) GREEN
      = if bb.2.1 ≠ 0 then LED_BLINK else LED_DISABLE := by
    rw [o4 GREEN (by decide) (by decide), f3, o2 GREEN (by decide) (by decide), fg]; rfl
  have hblue : enable_field (r4 MAX77843_RGBLED_REG_LEDEN % 256) BLUE
      = if bb.2.2 ≠ 0 then LED_BLINK else LED_DISABLE := by
    rw [f4, o3 BLUE (by decide) (by decide), o2 BLUE (by decide) (by decide), fb]; rfl
  have hbr1 : bb.1 ≠ 0 → r4 (MAX77843_RGBLED_REG_LED0BRT + RED)
      = scale_brightness s RED bb.1 % 256 := by
    intro hb
    rw [k4 _ (by decide) (by decide), k3 _ (by decide) (by decide), b2 hb]
  have hbr2 : bb.2.1 ≠ 0 → r4 (MAX77843_RGBLED_REG_LED0BRT + GREEN)
      = scale_brightness s GREEN bb.2.1 % 256 := by
    intro hb
    rw [k4 _ (by decide) (by decide), b3 hb]
  have hbr3 : bb.2.2 ≠ 0 → r4 (MAX77843_RGBLED_REG_LED0BRT + BLUE)
      = scale_brightness s BLUE bb.2.2 % 256 := b4
  by_cases hf : u.led_enable_fade ≠ 0 ∧ delay_on_time > 0
  · rw [if_pos hf, ramp_ok _ ((io_ok_withRegs u _ _).2 hu)]
    simp only [withRegs_withRegs, withRegs_regs, withRegs_io_count]
    rw [blink_ok _ ((io_ok_withRegs u _ _).2 hu)]
    refine ⟨_, rfl, ?_, ?_, ?_, ?_, ?_, ?_⟩ <;>
      simp only [channel_state, channel_brightness, withRegs_withRegs, withRegs_regs,
        Function.update_noteq hle, Function.update_noteq hlr,
        Function.update_noteq (hbe RED (by decide)), Function.update_noteq (hbr RED (by decide)),
        Function.update_noteq (hbe GREEN (by decide)),
        Function.update_noteq (hbr GREEN (by decide)),
        Function.update_noteq (hbe BLUE (by decide)),
        Function.update_noteq (hbr BLUE (by decide))]
    · exact hred
    · exact hgreen
    · exact hblue
    · exact hbr1
    · exact hbr2
    · exact hbr3
  · rw [if_neg hf, blink_ok _ ((io_ok_withRegs u _ _).2 hu)]
    refine ⟨_, rfl, ?_, ?_, ?_, ?_, ?_, ?_⟩ <;>
      simp only [channel_state, channel_brightness, withRegs_withRegs, withRegs_regs,
        Function.update_noteq hle, Function.update_noteq (hbe RED (by decide)),
        Function.update_noteq (hbe GREEN (by decide)),
        Function.update_noteq (hbe BLUE (by decide))]
    · exact hred
    · exact hgreen
    · exact hblue
    · exact hbr1
    · exact hbr2
    · exact hbr3

/-! ## Helper lemmas: a single lit channel -/

set_option maxRecDepth 1000000 in
/-- The three 8-bit components of a packed value with one lit channel. -/
theorem rgb24_components : ∀ c, c < 256 →
    (((c * 65536 &&& LED_R_MASK) >>> 16) % 256 = c ∧
      ((c * 65536 &&& LED_G_MASK) >>> 8) % 256 = 0 ∧ (c * 65536 &&& LED_B_MASK) % 256 = 0) ∧
    (((c * 256 &&& LED_R_MASK) >>> 16) % 256 = 0 ∧
      ((c * 256 &&& LED_G_MASK) >>> 8) % 256 = c ∧ (c * 256 &&& LED_B_MASK) % 256 = 0) ∧
    (((c &&& LED_R_MASK) >>> 16) % 256 = 0 ∧
      ((c &&& LED_G_MASK) >>> 8) % 256 = 0 ∧ (c &&& LED_B_MASK) % 256 = c) := by
  decide!

theorem limit_current_eq (c current : Nat) (hc : 1 ≤ c ∧ c ≤ 255) (hn : current ≤ 255) :
    limit_current c current = max 1 (c * current / 255) ∧
      (1 ≤ current → limit_current c current ≤ current) := by
  have h1 : c * current / 255 ≤ current := by
    apply Nat.div_le_of_le_mul
    exact Nat.mul_le_mul_right current hc.2
  have h2 : c * current / 255 < 256 := by omega
  have h0 : c ≠ 0 := by omega
  have e : limit_current c current = max 1 (c * current / 255) := by
    unfold limit_current LED_MAX_CURRENT
    simp only [ne_eq, h0, not_false_eq_true, if_true, Nat.mod_eq_of_lt h2]
    split_ifs with hz
    · rw [hz]; rfl
    · exact (max_eq_right (Nat.pos_of_ne_zero hz)).symm
  refine ⟨e, fun hpos => ?_⟩
  rw [e]
  exact max_le hpos h1

theorem limit_current_zero (current : Nat) : limit_current 0 current = 0 := by
  simp [limit_current]

theorem derate_pass (s : State) (r g b : Nat) (h : led_total_br s r g b ≤ led_max_br s) :
    derate s r g b = (r, g, b) := by
  have h2 : ¬ led_total_br s r g b > led_max_br s := by omega
  unfold derate
  simp only [h2, if_false, ite_self]

/-- One lit channel at a brightness within the ceiling weighs at most
`led_max_br`, whichever channel it is. -/
theorem single_total_le (s : State) (d : Nat)
    (hc : s.normal_powermode_current ≤ 255) (hd : d ≤ s.normal_powermode_current)
    (hrr : s.brightness_ratio_r ≤ 1000) (hrg : s.brightness_ratio_g ≤ 1000)
    (hrb : s.brightness_ratio_b ≤ 1000) :
    led_total_br s d 0 0 ≤ led_max_br s ∧ led_total_br s 0 d 0 ≤ led_max_br s ∧
      led_total_br s 0 0 d ≤ led_max_br s := by
  have hd255 : d ≤ 255 := le_trans hd hc
  rw [led_max_br_eq s hc hrr hrg hrb,
    led_total_br_eq s d 0 0 hd255 (by decide) (by decide) hrr hrg hrb,
    led_total_br_eq s 0 d 0 (by decide) hd255 (by decide) hrr hrg hrb,
    led_total_br_eq s 0 0 d (by decide) (by decide) hd255 hrr hrg hrb]
  simp only [Nat.zero_mul, Nat.zero_div, Nat.add_zero, Nat.zero_add]
  refine ⟨?_, ?_, ?_⟩
  · exact Nat.div_le_div_right (Nat.mul_le_mul hd (le_max_left _ _))
  · exact Nat.div_le_div_right (Nat.mul_le_mul hd
      (le_trans (le_max_left _ _) (le_max_right _ _)))
  · exact Nat.div_le_div_right (Nat.mul_le_mul hd
      (le_trans (le_max_right _ _) (le_max_right _ _)))

/-! ## Helper lemmas: counting register accesses on any transport -/

theorem write_reg_count (s : State) (reg value : Nat) :
    (max77843_write_reg s reg value).1.io_count = s.io_count + 1 ∧
      (max77843_write_reg s reg value).1.io_fail = s.io_fail := by
  unfold max77843_write_reg
  split_ifs <;> exact ⟨rfl, rfl⟩

theorem update_reg_count (s : State) (reg value mask : Nat) :
    (max77843_update_reg s reg value mask).1.io_count = s.io_count + 1 ∧
      (max77843_update_reg s reg value mask).1.io_fail = s.io_fail := by
  unfold max77843_update_reg
  split_ifs <;> exact ⟨rfl, rfl⟩

theorem write_reg_fail (s : State) (h : s.io_fail s.io_count = true) (reg value : Nat) :
    (max77843_write_reg s reg value).1 = s.withRegs s.regs (s.io_count + 1) ∧
      (max77843_write_reg s reg value).2 = true := by
  unfold max77843_write_reg
  rw [if_pos h]
  exact ⟨rfl, rfl⟩

theorem update_reg_fail (s : State) (h : s.io_fail s.io_count = true) (reg value mask : Nat) :
    (max77843_update_reg s reg value mask).1 = s.withRegs s.regs (s.io_count + 1) ∧
      (max77843_update_reg s reg value mask).2 = true := by
  unfold max77843_update_reg
  rw [if_pos h]
  exact ⟨rfl, rfl⟩

theorem update_reg_succ (s : State) (h : s.io_fail s.io_count = false) (reg value mask : Nat) :
    (max77843_update_reg s reg value mask).1
      = s.withRegs (Function.update s.regs reg (update_bits (s.regs reg) value mask))
          (s.io_count + 1) := by
  unfold max77843_update_reg
  rw [if_neg (by simp [h])]
  rfl

theorem set_count (s : State) (n b : Nat) (hn : n < 4) :
    (max77843_rgb_set s n b).io_count
        = s.io_count + (if b = 0 ∨ s.io_fail s.io_count = true then 1 else 2) ∧
      (max77843_rgb_set s n b).io_fail = s.io_fail := by
  have hw := write_reg_count s (MAX77843_RGBLED_REG_LED0BRT + n) b
  have hf : (max77843_write_reg s (MAX77843_RGBLED_REG_LED0BRT + n) b).2
      = s.io_fail s.io_count := by
    unfold max77843_write_reg
    split_ifs with h <;> simp [h]
  simp only [max77843_rgb_set, max77843_rgb_number, hn, if_true, LED_OFF]
  by_cases hb : b = 0
  · simp only [hb, if_true, true_or]
    exact update_reg_count _ _ _ _
  · simp only [hb, if_false, false_or, hf]
    by_cases hio : s.io_fail s.io_count = true
    · simp only [hio, if_true]
      exact hw
    · have hio2 : s.io_fail s.io_count = false := by simpa using hio
      simp only [hio2, Bool.false_eq_true, if_false]
      have hu := update_reg_count
        (max77843_write_reg s (MAX77843_RGBLED_REG_LED0BRT + n) b).1
        MAX77843_RGBLED_REG_LEDEN 0x55 (3 <<< (2 * n))
      constructor
      · rw [hu.1, hw.1]
      · rw [hu.2, hw.2]

/-- The accesses of `max77843_rgb_set_state` on any transport: the final update of
`LEDEN` is always issued; only the enable update inside `max77843_rgb_set` is
skipped, when the brightness write fails. -/
theorem set_state_count (s : State) (n b st : Nat) (hn : n < 4) :
    (max77843_rgb_set_state s n b st).io_count
        = s.io_count +
          (if scale_brightness s n b = 0 ∨ s.io_fail s.io_count = true then 2 else 3) ∧
      (max77843_rgb_set_state s n b st).io_fail = s.io_fail := by
  obtain ⟨h1, h2⟩ := set_count s n (scale_brightness s n b) hn
  have hu := update_reg_count (max77843_rgb_set s n (scale_brightness s n b))
    MAX77843_RGBLED_REG_LEDEN ((st <<< (2 * n)) % U32) (3 <<< (2 * n))
  simp only [max77843_rgb_set_state, max77843_rgb_number, hn, if_true]
  constructor
  · rw [hu.1, h1]
    split_ifs <;> rfl
  · rw [hu.2, h2]

theorem ramp_count (s : State) (ramp_up ramp_down : Nat) :
    (max77843_rgb_ramp s ramp_up ramp_down).1.io_count = s.io_count + 1 ∧
      (max77843_rgb_ramp s ramp_up ramp_down).1.io_fail = s.io_fail := by
  unfold max77843_rgb_ramp
  simp only []
  split_ifs <;> exact write_reg_count _ _ _

/-- A reset issues its seven accesses on any transport. -/
theorem reset_count (s : State) :
    ∃ t, max77843_rgb_reset (some ()) s = some t ∧ t.io_count = s.io_count + 7 := by
  have z : ∀ (u : State) (n : Nat), n < 4 →
      (max77843_rgb_set_state u n LED_OFF LED_DISABLE).io_count = u.io_count + 2 := by
    intro u n hn
    rw [(set_state_count u n LED_OFF LED_DISABLE hn).1]
    simp [LED_OFF, scale_brightness_zero]
  refine ⟨_, rfl, ?_⟩
  rw [(ramp_count _ 0 0).1, z _ BLUE (by decide), z _ GREEN (by decide), z _ RED (by decide)]

/-! ## Claims C11 to C20 -/

/-- C13, counterexample: with the low-power flag set, a ceiling command with
value 10 clears the flag. -/
theorem lowpower_sticky_counterexample :
    (handle ⟨10, 0⟩ 3 { State.init (fun _ => 0) (fun _ => false) with led_lowpower_mode := 1 }
      (.SetGlobalBrightnessCeiling (some 10))).map (fun t => t.led_lowpower_mode) = some 0 := by
  decide

/-- C13, amended: every command returns; `led_lowpower_mode` is assigned only by
the low-power command (to the scanned byte) and by the ceiling command (to 0,
whenever its value scans); a command of any other kind, and either of these two
when its scan fails, leaves the flag unchanged. -/
theorem lowpower_mode_sticky (now : Clock) (count : Nat) (s : State) (c : Command) :
    ∃ t, handle now count s c = some t ∧
      ((∀ v, c ≠ .SetLowPowerMode (some v)) → (∀ v, c ≠ .SetGlobalBrightnessCeiling (some v)) →
        t.led_lowpower_mode = s.led_lowpower_mode) ∧
      (∀ v, c = .SetLowPowerMode (some v) → t.led_lowpower_mode = v % 256) ∧
      (∀ v, c = .SetGlobalBrightnessCeiling (some v) → t.led_lowpower_mode = 0) := by
  cases c with
  | SetPattern mode =>
    obtain ⟨r, k, d, e⟩ := pattern_shape now s mode
    exact ⟨_, e, fun _ _ => rfl, fun v h => (by cases h), fun v h => (by cases h)⟩
  | SetRawBlink lb d_on d_off =>
    obtain ⟨r, k, e⟩ := raw_blink_shape s lb d_on d_off
    exact ⟨_, e, fun _ _ => rfl, fun v h => (by cases h), fun v h => (by cases h)⟩
  | SetLedR v =>
    obtain ⟨r, k, e⟩ := (store_led_shape s v count).1
    exact ⟨_, congrArg some e, fun _ _ => rfl, fun v h => (by cases h), fun v h => (by cases h)⟩
  | SetLedG v =>
    obtain ⟨r, k, e⟩ := (store_led_shape s v count).2.1
    exact ⟨_, congrArg some e, fun _ _ => rfl, fun v h => (by cases h), fun v h => (by cases h)⟩
  | SetLedB v =>
    obtain ⟨r, k, e⟩ := (store_led_shape s v count).2.2
    exact ⟨_, congrArg some e, fun _ _ => rfl, fun v h => (by cases h), fun v h => (by cases h)⟩
  | SetBlink led v =>
    obtain ⟨r, k, a, b, e⟩ := led_blink_shape s led v count
    exact ⟨_, congrArg some e, fun _ _ => rfl, fun v h => (by cases h), fun v h => (by cases h)⟩
  | SetLowPowerMode v =>
    cases v with
    | none => exact ⟨s, rfl, fun _ _ => rfl, fun v h => (by cases h), fun v h => (by cases h)⟩
    | some x =>
      exact ⟨_, rfl, fun h _ => absurd rfl (h x), fun v h => (by cases h; rfl),
        fun v h => (by cases h)⟩
  | SetGlobalBrightnessCeiling v =>
    cases v with
    | none => exact ⟨s, rfl, fun _ _ => rfl, fun v h => (by cases h), fun v h => (by cases h)⟩
    | some x =>
      exact ⟨_, rfl, fun _ h => absurd rfl (h x), fun v h => (by cases h),
        fun v h => (by cases h; rfl)⟩
  | SetDelayOn v =>
    cases v <;> exact ⟨_, rfl, fun _ _ => rfl, fun v h => (by cases h), fun v h => (by cases h)⟩
  | SetDelayOff v =>
    cases v <;> exact ⟨_, rfl, fun _ _ => rfl, fun v h => (by cases h), fun v h => (by cases h)⟩
  | SetFadeEnabled v =>
    refine ⟨_, rfl, fun _ _ => ?_, fun v h => (by cases h), fun v h => (by cases h)⟩
    cases v with
    | none => rfl
    | some x => simp only [led_fade_store]; split_ifs <;> rfl
  | SetDebugEnable v =>
    refine ⟨_, rfl, fun _ _ => ?_, fun v h => (by cases h), fun v h => (by cases h)⟩
    cases v with
    | none => rfl
    | some x => simp only [led_debug_enable_store]; split_ifs <;> rfl
  | SetFadeTimeUp v =>
    refine ⟨_, rfl, fun _ _ => ?_, fun v h => (by cases h), fun v h => (by cases h)⟩
    cases v with
    | none => rfl
    | some x => simp only [led_fade_time_up_store]; split_ifs <;> rfl
  | SetFadeTimeDown v =>
    refine ⟨_, rfl, fun _ _ => ?_, fun v h => (by cases h), fun v h => (by cases h)⟩
    cases v with
    | none => rfl
    | some x => simp only [led_fade_time_down_store]; split_ifs <;> rfl
  | SetAlwaysDisable v =>
    refine ⟨_, rfl, fun _ _ => ?_, fun v h => (by cases h), fun v h => (by cases h)⟩
    cases v with
    | none => rfl
    | some x => simp only [led_always_disable_store]; split_ifs <;> rfl
  | SetBlockStart v =>
    refine ⟨_, rfl, fun _ _ => ?_, fun v h => (by cases h), fun v h => (by cases h)⟩
    cases v with
    | none => simp only [led_block_leds_time_start_store, arm_check_led_time]; split_ifs <;> rfl
    | some x =>
      simp only [led_block_leds_time_start_store, arm_check_led_time]; split_ifs <;> rfl
  | SetBlockStop v =>
    refine ⟨_, rfl, fun _ _ => ?_, fun v h => (by cases h), fun v h => (by cases h)⟩
    cases v with
    | none => simp only [led_block_leds_time_stop_store, arm_check_led_time]; split_ifs <;> rfl
    | some x =>
      simp only [led_block_leds_time_stop_store, arm_check_led_time]; split_ifs <;> rfl

/-- Witness of the amended C13: a Charging pattern leaves a set low-power flag
set. -/
theorem lowpower_mode_sticky_witness :
    ∃ t, handle ⟨10, 0⟩ 1
        { State.init (fun _ => 0) (fun _ => false) with led_lowpower_mode := 1 }
        (.SetPattern CHARGING) = some t ∧ t.led_lowpower_mode = 1 := by
  obtain ⟨t, e, h, -, -⟩ := lowpower_mode_sticky ⟨10, 0⟩ 1
    { State.init (fun _ => 0) (fun _ => false) with led_lowpower_mode := 1 }
    (.SetPattern CHARGING)
  exact ⟨t, e, h (fun v hv => (by cases hv)) (fun v hv => (by cases hv))⟩

/-- C14: from the initial configuration every sequence of commands, whatever
their arguments, is handled to its end and leaves the fade times in 100..4000,
`led_enable_fade` and `led_always_disable` in 0..1 and the block bounds at -1 or
in 0..23; every configuration handler returns `count`; an argument that does not
scan or is out of range leaves the addressed field (for the fade and disable
handlers the whole state) as it was, and a fade time in range is stored. -/
theorem config_stays_well_formed (regs : Nat → Nat) (io : Nat → Bool)
    (cmds : List (Clock × Nat × Command)) (s : State) (v : Option Int) (count : Nat) :
    (∃ t, run (State.init regs io) cmds = some t ∧ config_wf t) ∧
    ((led_fade_store s v count).2 = count ∧ (led_fade_time_up_store s v count).2 = count ∧
      (led_fade_time_down_store s v count).2 = count ∧
      (led_always_disable_store s v count).2 = count ∧
      (led_block_leds_time_start_store s v count).2 = count ∧
      (led_block_leds_time_stop_store s v count).2 = count) ∧
    ((∀ x, v = some x → ¬ (x = 0 ∨ x = 1)) →
      (led_fade_store s v count).1 = s ∧ (led_always_disable_store s v count).1 = s) ∧
    ((∀ x, v = some x → ¬ (x ≥ 100 ∧ x ≤ 4000)) →
      (led_fade_time_up_store s v count).1 = s ∧ (led_fade_time_down_store s v count).1 = s) ∧
    ((∀ x, v = some x → ¬ (x = -1 ∨ (x ≥ 0 ∧ x ≤ 23))) →
      (led_block_leds_time_start_store s v count).1.led_block_leds_time_start
        = s.led_block_leds_time_start ∧
      (led_block_leds_time_stop_store s v count).1.led_block_leds_time_stop
        = s.led_block_leds_time_stop) ∧
    (∀ x, v = some x → (x ≥ 100 ∧ x ≤ 4000) →
      ((led_fade_time_up_store s v count).1.led_fade_time_up : Int) = x ∧
      ((led_fade_time_down_store s v count).1.led_fade_time_down : Int) = x) := by
  refine ⟨run_invariant config_wf handle_config_wf cmds _ ?_, ?_, ?_, ?_, ?_, ?_⟩
  · simp [config_wf, State.init]
  · cases v with
    | none => exact ⟨rfl, rfl, rfl, rfl, rfl, rfl⟩
    | some x =>
      refine ⟨?_, ?_, ?_, ?_, rfl, rfl⟩
      · simp only [led_fade_store]; split_ifs <;> rfl
      · simp only [led_fade_time_up_store]; split_ifs <;> rfl
      · simp only [led_fade_time_down_store]; split_ifs <;> rfl
      · simp only [led_always_disable_store]; split_ifs <;> rfl
  · intro h
    cases v with
    | none => exact ⟨rfl, rfl⟩
    | some x =>
      have hx := h x rfl
      simp only [led_fade_store, led_always_disable_store, if_neg hx, and_self]
  · intro h
    cases v with
    | none => exact ⟨rfl, rfl⟩
    | some x =>
      have hx := h x rfl
      simp only [led_fade_time_up_store, led_fade_time_down_store, if_neg hx, and_self]
  · intro h
    cases v with
    | none =>
      constructor
      · simp only [led_block_leds_time_start_store, arm_check_led_time]; split_ifs <;> rfl
      · simp only [led_block_leds_time_stop_store, arm_check_led_time]; split_ifs <;> rfl
    | some x =>
      have hx := h x rfl
      constructor
      · simp only [led_block_leds_time_start_store, arm_check_led_time, if_neg hx]
        split_ifs <;> rfl
      · simp only [led_block_leds_time_stop_store, arm_check_led_time, if_neg hx]
        split_ifs <;> rfl
  · intro x hv hx
    subst hv
    have e := toU32_of_range x (by omega) (by omega)
    simp only [led_fade_time_up_store, led_fade_time_down_store, if_pos hx, e]
    omega

/-- Witness of C14: from the initial state, fade time 5000 is ignored, fade time
1600 is stored, hour 24 is ignored and hour 22 is stored, and the result is
well-formed. -/
theorem config_stays_well_formed_witness :
    ∃ t, run (State.init (fun _ => 0) (fun _ => false))
        [(⟨10, 0⟩, 5, .SetFadeTimeUp (some 5000)), (⟨10, 0⟩, 5, .SetFadeTimeDown (some 1600)),
          (⟨10, 0⟩, 3, .SetBlockStart (some 24)), (⟨10, 0⟩, 3, .SetBlockStop (some 22))]
        = some t ∧ config_wf t :=
  (config_stays_well_formed (fun _ => 0) (fun _ => false)
    [(⟨10, 0⟩, 5, .SetFadeTimeUp (some 5000)), (⟨10, 0⟩, 5, .SetFadeTimeDown (some 1600)),
      (⟨10, 0⟩, 3, .SetBlockStart (some 24)), (⟨10, 0⟩, 3, .SetBlockStop (some 22))]
    (State.init (fun _ => 0) (fun _ => false)) none 0).1

/-- C15: from the initial state, after every sequence of commands (the block
window commands with any arguments in particular) `is_work_active` is true
exactly when both block bounds differ from -1; `check_led_timer` leaves the work
queued only when both bounds are set, and, when it does not fault, exactly when
`is_work_active` is true and both bounds are set. -/
theorem recheck_armed_iff_bounds (regs : Nat → Nat) (io : Nat → Bool)
    (cmds : List (Clock × Nat × Command)) (now : Clock) (s : State) :
    (∃ t, run (State.init regs io) cmds = some t ∧
      (t.is_work_active = true ↔
        (t.led_block_leds_time_start ≠ -1 ∧ t.led_block_leds_time_stop ≠ -1))) ∧
    (∀ t, check_led_timer now s = some t → t.work_pending = true →
      s.led_block_leds_time_start ≠ -1 ∧ s.led_block_leds_time_stop ≠ -1) ∧
    ((s.led_always_disable = 0 ∨ s.GBLdev ≠ none) →
      ∃ t, check_led_timer now s = some t ∧
        (t.work_pending = true ↔
          (s.is_work_active = true ∧ s.led_block_leds_time_start ≠ -1 ∧
            s.led_block_leds_time_stop ≠ -1))) := by
  have pos : (s.led_always_disable = 0 ∨ s.GBLdev ≠ none) →
      ∃ t, check_led_timer now s = some t ∧
        (t.work_pending = true ↔
          (s.is_work_active = true ∧ s.led_block_leds_time_start ≠ -1 ∧
            s.led_block_leds_time_stop ≠ -1)) := by
    intro h
    obtain ⟨v, r, c, e⟩ := check_restrictions_frame now { s with work_pending := false } h
    unfold check_led_timer
    rw [e]
    simp only [withRegs_is_work_active, withRegs_led_block_leds_time_start,
      withRegs_led_block_leds_time_stop]
    split_ifs with hc
    · exact ⟨_, rfl, fun _ => hc, fun _ => rfl⟩
    · refine ⟨_, rfl, fun hp => ?_, fun hp => absurd hp hc⟩
      exact absurd hp (by simp)
  refine ⟨?_, ?_, pos⟩
  · refine run_invariant _ handle_armed cmds _ ?_
    simp [State.init]
  · intro t ht hp
    by_cases h : s.led_always_disable = 0 ∨ s.GBLdev ≠ none
    · obtain ⟨t2, e2, h2⟩ := pos h
      rw [e2] at ht
      cases ht
      exact (h2.1 hp).2
    · exfalso
      have h1 : s.led_always_disable ≠ 0 := fun h0 => h (Or.inl h0)
      have h2 : s.GBLdev = none := by
        by_contra hg
        exact h (Or.inr hg)
      have hf : check_led_timer now s = none := by
        unfold check_led_timer check_restrictions
        simp only [h1, ne_eq, not_false_eq_true, if_true, h2, max77843_rgb_reset, Option.map]
      rw [hf] at ht
      cases ht

/-- Witness of C15: setting start 22 and stop 6 from the initial state arms the
re-evaluation. -/
theorem recheck_armed_iff_bounds_witness :
    ∃ t, run (State.init (fun _ => 0) (fun _ => false))
        [(⟨10, 0⟩, 3, .SetBlockStart (some 22)), (⟨10, 0⟩, 2, .SetBlockStop (some 6))]
        = some t ∧
      (t.is_work_active = true ↔
        (t.led_block_leds_time_start ≠ -1 ∧ t.led_block_leds_time_stop ≠ -1)) :=
  (recheck_armed_iff_bounds (fun _ => 0) (fun _ => false)
    [(⟨10, 0⟩, 3, .SetBlockStart (some 22)), (⟨10, 0⟩, 2, .SetBlockStop (some 6))]
    ⟨10, 0⟩ (State.init (fun _ => 0) (fun _ => false))).1

/-- C19: for every state (any ceiling, any ratios, 0 included) and every
component triple the derating step with fallible division returns, and returns
what `derate` computes: each division by `led_total_br` is reached only under
`led_total_br > led_max_br`, hence with `led_total_br >= 1`. Every nonzero
component, of a triple or of a packed `rgb24`, comes out nonzero. -/
theorem derate_never_divides_by_zero (s : State) (r g b led_brightness : Nat) :
    derate_checked s r g b = some (derate s r g b) ∧
    (led_total_br s r g b > led_max_br s → 1 ≤ led_total_br s r g b) ∧
    (r ≠ 0 → (derate s r g b).1 ≠ 0) ∧ (g ≠ 0 → (derate s r g b).2.1 ≠ 0) ∧
    (b ≠ 0 → (derate s r g b).2.2 ≠ 0) ∧
    (((led_brightness &&& LED_R_MASK) >>> 16) % 256 ≠ 0 →
      (blink_brightness s led_brightness).1 ≠ 0) ∧
    (((led_brightness &&& LED_G_MASK) >>> 8) % 256 ≠ 0 →
      (blink_brightness s led_brightness).2.1 ≠ 0) ∧
    ((led_brightness &&& LED_B_MASK) % 256 ≠ 0 →
      (blink_brightness s led_brightness).2.2 ≠ 0) := by
  have hd := derate_ne_zero s r g b
  refine ⟨?_, fun h => by omega, hd.1, hd.2.1, hd.2.2, ?_, ?_, ?_⟩
  · unfold derate_checked derate
    simp only []
    split_ifs with hv hT hT
    · have h0 : led_total_br s r g b ≠ 0 := by omega
      simp [derate_plain_checked_eq _ _ _ h0, derate_workaround_checked_eq _ _ _ h0]
    · rfl
    · have h0 : led_total_br s r g b ≠ 0 := by omega
      simp [derate_plain_checked_eq _ _ _ h0]
    · rfl
  · intro h
    exact (derate_ne_zero s _ _ _).1 (limit_current_ne_zero _ _ h)
  · intro h
    exact (derate_ne_zero s _ _ _).2.1 (limit_current_ne_zero _ _ h)
  · intro h
    exact (derate_ne_zero s _ _ _).2.2 (limit_current_ne_zero _ _ h)

/-- Witness of C19: with all ratios 0 the total and the ceiling are 0, no
division is reached, and Red of 0xFF0000 stays nonzero. -/
theorem derate_never_divides_by_zero_witness :
    (blink_brightness { State.init (fun _ => 0) (fun _ => false) with
        brightness_ratio_r := 0, brightness_ratio_g := 0, brightness_ratio_b := 0 }
      0xFF0000).1 ≠ 0 :=
  (derate_never_divides_by_zero { State.init (fun _ => 0) (fun _ => false) with
      brightness_ratio_r := 0, brightness_ratio_g := 0, brightness_ratio_b := 0 }
    0 0 0 0xFF0000).2.2.2.2.2.1 (by decide)

/-- C17: for a ceiling in 0..255, components in 0..255 and ratios in 1..1000,
`led_max_br` is `ceiling * max_ratio / 100` and the total is the sum of
`component * ratio / 100`; when the total exceeds `led_max_br` each nonzero
channel becomes `max(1, channel * max_br / total)`, except that under the
workaround (`device_type = 1` and `octa_color = 1`) Red and Green become
`max(1, (channel * max_br / total) * 8 / 10)` while Blue keeps the plain formula;
otherwise the triple passes through; zero components stay zero. -/
theorem derate_formula (s : State) (r g b : Nat)
    (hc : s.normal_powermode_current ≤ 255)
    (hr : r ≤ 255) (hg : g ≤ 255) (hb : b ≤ 255)
    (hrr : 1 ≤ s.brightness_ratio_r ∧ s.brightness_ratio_r ≤ 1000)
    (hrg : 1 ≤ s.brightness_ratio_g ∧ s.brightness_ratio_g ≤ 1000)
    (hrb : 1 ≤ s.brightness_ratio_b ∧ s.brightness_ratio_b ≤ 1000) :
    led_max_br s = s.normal_powermode_current *
      max s.brightness_ratio_r (max s.brightness_ratio_g s.brightness_ratio_b) / 100 ∧
    led_total_br s r g b = r * s.brightness_ratio_r / 100 + g * s.brightness_ratio_g / 100
      + b * s.brightness_ratio_b / 100 ∧
    (led_total_br s r g b > led_max_br s → ¬ (s.device_type = 1 ∧ s.octa_color = 1) →
      derate s r g b =
        (if r = 0 then 0 else max 1 (r * led_max_br s / led_total_br s r g b),
         if g = 0 then 0 else max 1 (g * led_max_br s / led_total_br s r g b),
         if b = 0 then 0 else max 1 (b * led_max_br s / led_total_br s r g b))) ∧
    (led_total_br s r g b > led_max_br s → (s.device_type = 1 ∧ s.octa_color = 1) →
      derate s r g b =
        (if r = 0 then 0 else max 1 (r * led_max_br s / led_total_br s r g b * 8 / 10),
         if g = 0 then 0 else max 1 (g * led_max_br s / led_total_br s r g b * 8 / 10),
         if b = 0 then 0 else max 1 (b * led_max_br s / led_total_br s r g b))) ∧
    (led_total_br s r g b ≤ led_max_br s → derate s r g b = (r, g, b)) ∧
    (r = 0 → (derate s r g b).1 = 0) ∧ (g = 0 → (derate s r g b).2.1 = 0) ∧
    (b = 0 → (derate s r g b).2.2 = 0) := by
  have hM := led_max_br_eq s hc hrr.2 hrg.2 hrb.2
  have hT := led_total_br_eq s r g b hr hg hb hrr.2 hrg.2 hrb.2
  have hM2550 : led_max_br s ≤ 2550 := by
    rw [hM]
    have : s.normal_powermode_current *
        max s.brightness_ratio_r (max s.brightness_ratio_g s.brightness_ratio_b)
        ≤ 255 * 1000 := Nat.mul_le_mul hc (by omega)
    omega
  have plain : led_total_br s r g b > led_max_br s →
      ¬ (s.device_type = 1 ∧ s.octa_color = 1) →
      derate s r g b =
        (if r = 0 then 0 else max 1 (r * led_max_br s / led_total_br s r g b),
         if g = 0 then 0 else max 1 (g * led_max_br s / led_total_br s r g b),
         if b = 0 then 0 else max 1 (b * led_max_br s / led_total_br s r g b)) := by
    intro h1 h2
    unfold derate
    simp only [h1, h2, if_true, if_false]
    rw [derate_plain_eq r _ _ hr hM2550 h1, derate_plain_eq g _ _ hg hM2550 h1,
      derate_plain_eq b _ _ hb hM2550 h1]
  have work : led_total_br s r g b > led_max_br s →
      (s.device_type = 1 ∧ s.octa_color = 1) →
      derate s r g b =
        (if r = 0 then 0 else max 1 (r * led_max_br s / led_total_br s r g b * 8 / 10),
         if g = 0 then 0 else max 1 (g * led_max_br s / led_total_br s r g b * 8 / 10),
         if b = 0 then 0 else max 1 (b * led_max_br s / led_total_br s r g b)) := by
    intro h1 h2
    unfold derate
    simp only [h1, h2, and_self, if_true]
    rw [derate_workaround_eq r _ _ hr hM2550 h1, derate_workaround_eq g _ _ hg hM2550 h1,
      derate_plain_eq b _ _ hb hM2550 h1]
  have pass : led_total_br s r g b ≤ led_max_br s → derate s r g b = (r, g, b) := by
    intro h1
    have h2 : ¬ led_total_br s r g b > led_max_br s := by omega
    unfold derate
    simp only [h2, if_false, ite_self]
  refine ⟨hM, hT, plain, work, pass, ?_, ?_, ?_⟩
  all_goals
    intro h0
    by_cases h1 : led_total_br s r g b > led_max_br s
    · by_cases h2 : s.device_type = 1 ∧ s.octa_color = 1
      · rw [work h1 h2]; simp [h0]
      · rw [plain h1 h2]; simp [h0]
    · rw [pass (by omega)]; exact h0

/-- Witness of C17 under the workaround: ceiling 20, ratios 100, components
(255, 255, 255) give total 765 over `led_max_br` 20, so Red and Green become
`6 * 8 / 10 = 4` and Blue becomes 6. -/
theorem derate_formula_witness :
    derate { State.init (fun _ => 0) (fun _ => false) with device_type := 1, octa_color := 1 }
      255 255 255 = (4, 4, 6) :=
  ((derate_formula
      { State.init (fun _ => 0) (fun _ => false) with device_type := 1, octa_color := 1 }
      255 255 255 (by decide) (by decide) (by decide) (by decide) (by decide) (by decide)
      (by decide)).2.2.2.1 (by decide) (by decide)).trans (by decide)

/-- C18: for a ceiling in 1..255, ratios in 1..1000 and a packed value with one
nonzero component `c`, whichever channel it lights, the component is scaled to
`max(1, c * ceiling / 255)`, the weighted total does not exceed `led_max_br`,
the derating leaves the triple unchanged with or without the workaround, and on
a transport that succeeds that channel is set to Blink at this brightness (ratio
scaled, as a byte) while the other two stay disabled. -/
theorem single_channel_not_derated (s : State) (c : Nat) (delay_on_time delay_off_time : Int)
    (hcur : 1 ≤ s.normal_powermode_current ∧ s.normal_powermode_current ≤ 255)
    (hrr : 1 ≤ s.brightness_ratio_r ∧ s.brightness_ratio_r ≤ 1000)
    (hrg : 1 ≤ s.brightness_ratio_g ∧ s.brightness_ratio_g ≤ 1000)
    (hrb : 1 ≤ s.brightness_ratio_b ∧ s.brightness_ratio_b ≤ 1000)
    (hc : 1 ≤ c ∧ c ≤ 255) (hio : io_ok s) :
    limit_current c s.normal_powermode_current
      = max 1 (c * s.normal_powermode_current / 255) ∧
    led_total_br s (max 1 (c * s.normal_powermode_current / 255)) 0 0 ≤ led_max_br s ∧
    led_total_br s 0 (max 1 (c * s.normal_powermode_current / 255)) 0 ≤ led_max_br s ∧
    led_total_br s 0 0 (max 1 (c * s.normal_powermode_current / 255)) ≤ led_max_br s ∧
    blink_brightness { s with led_dynamic_current := s.normal_powermode_current } (c * 65536)
      = (max 1 (c * s.normal_powermode_current / 255), 0, 0) ∧
    blink_brightness { s with led_dynamic_current := s.normal_powermode_current } (c * 256)
      = (0, max 1 (c * s.normal_powermode_current / 255), 0) ∧
    blink_brightness { s with led_dynamic_current := s.normal_powermode_current } c
      = (0, 0, max 1 (c * s.normal_powermode_current / 255)) ∧
    (∃ t, store_max77843_rgb_blink s (c * 65536) delay_on_time delay_off_time = some t ∧
      channel_state t RED = LED_BLINK ∧
      channel_brightness t RED
        = scale_brightness s RED (max 1 (c * s.normal_powermode_current / 255)) % 256 ∧
      channel_state t GREEN = LED_DISABLE ∧ channel_state t BLUE = LED_DISABLE) ∧
    (∃ t, store_max77843_rgb_blink s (c * 256) delay_on_time delay_off_time = some t ∧
      channel_state t GREEN = LED_BLINK ∧
      channel_brightness t GREEN
        = scale_brightness s GREEN (max 1 (c * s.normal_powermode_current / 255)) % 256 ∧
      channel_state t RED = LED_DISABLE ∧ channel_state t BLUE = LED_DISABLE) ∧
    (∃ t, store_max77843_rgb_blink s c delay_on_time delay_off_time = some t ∧
      channel_state t BLUE = LED_BLINK ∧
      channel_brightness t BLUE
        = scale_brightness s BLUE (max 1 (c * s.normal_powermode_current / 255)) % 256 ∧
      channel_state t RED = LED_DISABLE ∧ channel_state t GREEN = LED_DISABLE) := by
  obtain ⟨hl, hle⟩ := limit_current_eq c s.normal_powermode_current hc hcur.2
  have hd : max 1 (c * s.normal_powermode_current / 255) ≤ s.normal_powermode_current := by
    rw [← hl]; exact hle hcur.1
  have hd0 : max 1 (c * s.normal_powermode_current / 255) ≠ 0 := by
    have := le_max_left 1 (c * s.normal_powermode_current / 255)
    omega
  obtain ⟨t1, t2, t3⟩ := single_total_le s _ hcur.2 hd hrr.2 hrg.2 hrb.2
  obtain ⟨k1, k2, k3⟩ := rgb24_components c (by omega)
  have e1 : blink_brightness { s with led_dynamic_current := s.normal_powermode_current }
      (c * 65536) = (max 1 (c * s.normal_powermode_current / 255), 0, 0) := by
    unfold blink_brightness
    simp only [k1.1, k1.2.1, k1.2.2, limit_current_zero, hl]
    exact derate_pass _ _ _ _ t1
  have e2 : blink_brightness { s with led_dynamic_current := s.normal_powermode_current }
      (c * 256) = (0, max 1 (c * s.normal_powermode_current / 255), 0) := by
    unfold blink_brightness
    simp only [k2.1, k2.2.1, k2.2.2, limit_current_zero, hl]
    exact derate_pass _ _ _ _ t2
  have e3 : blink_brightness { s with led_dynamic_current := s.normal_powermode_current }
      c = (0, 0, max 1 (c * s.normal_powermode_current / 255)) := by
    unfold blink_brightness
    simp only [k3.1, k3.2.1, k3.2.2, limit_current_zero, hl]
    exact derate_pass _ _ _ _ t3
  refine ⟨hl, t1, t2, t3, e1, e2, e3, ?_, ?_, ?_⟩
  · obtain ⟨t, et, sr, sg, sb, br, -, -⟩ :=
      raw_blink_ok s hio (c * 65536) delay_on_time delay_off_time
    rw [e1] at sr sg sb br
    refine ⟨t, et, ?_, br hd0, ?_, ?_⟩
    · rw [sr, if_pos hd0]
    · rw [sg]; rfl
    · rw [sb]; rfl
  · obtain ⟨t, et, sr, sg, sb, -, bg, -⟩ :=
      raw_blink_ok s hio (c * 256) delay_on_time delay_off_time
    rw [e2] at sr sg sb bg
    refine ⟨t, et, ?_, bg hd0, ?_, ?_⟩
    · rw [sg, if_pos hd0]
    · rw [sr]; rfl
    · rw [sb]; rfl
  · obtain ⟨t, et, sr, sg, sb, -, -, bb⟩ :=
      raw_blink_ok s hio c delay_on_time delay_off_time
    rw [e3] at sr sg sb bb
    refine ⟨t, et, ?_, bb hd0, ?_, ?_⟩
    · rw [sb, if_pos hd0]
    · rw [sr]; rfl
    · rw [sg]; rfl

/-- Witness of C18 on the initial state with Red ratio 150: 0x800000 lights Red
alone and is not derated. -/
theorem single_channel_not_derated_witness :
    blink_brightness
      { ({ State.init (fun _ => 0) (fun _ => false) with brightness_ratio_r := 150 } : State)
        with led_dynamic_current := 20 } (128 * 65536) = (max 1 (128 * 20 / 255), 0, 0) :=
  (single_channel_not_derated
    { State.init (fun _ => 0) (fun _ => false) with brightness_ratio_r := 150 } 128 500 500
    (by decide) (by decide) (by decide) (by decide) (by decide) (fun _ => rfl)).2.2.2.2.1

/-- C12, counterexample: with the first register access failing and every
register at 0xFF beforehand, a reset (pattern Off) still issues all 7 accesses
and writes the ramp register; and `store_led_r` with 20, whose brightness write
fails, still issues the enable update, so Red is on with its old brightness. -/
theorem io_failure_abort_counterexample :
    (store_max77843_rgb_pattern ⟨10, 0⟩ (State.init (fun _ => 0xFF) (fun k => k == 0))
      PATTERN_OFF).map
      (fun t => (t.io_count, t.regs MAX77843_RGBLED_REG_LEDRMP, channel_state t RED))
      = some (7, 0, LED_DISABLE) ∧
    ((store_led_r (State.init (fun _ => 0xFF) (fun k => k == 0)) (some 20) 3).1.io_count,
      channel_brightness (store_led_r (State.init (fun _ => 0xFF) (fun k => k == 0))
        (some 20) 3).1 RED,
      channel_state (store_led_r (State.init (fun _ => 0xFF) (fun k => k == 0))
        (some 20) 3).1 RED) = (2, 0xFF, LED_ALWAYS_ON) := by
  decide

/-- C12, amended: a register access that fails changes no register, and inside
`max77843_rgb_set` a failed brightness write skips that call's enable update;
but no command aborts: `max77843_rgb_set_state` always issues its final update
of `LEDEN` (2 accesses when the brightness is 0 or the first access fails, 3
otherwise), which takes effect when it succeeds even after a failure, and a
reset, alone or as pattern Off, always issues its 7 accesses. -/
theorem io_failure_does_not_abort (now : Clock) (s : State) (n b st : Nat)
    (hn : n < 4) (hst : st < 4) :
    (s.io_fail s.io_count = true → ∀ reg v m,
      (max77843_write_reg s reg v).1.regs = s.regs ∧
      (max77843_update_reg s reg v m).1.regs = s.regs) ∧
    (max77843_rgb_set_state s n b st).io_count
      = s.io_count +
        (if scale_brightness s n b = 0 ∨ s.io_fail s.io_count = true then 2 else 3) ∧
    (s.io_fail s.io_count = true → s.io_fail (s.io_count + 1) = false →
      channel_state (max77843_rgb_set_state s n b st) n = st ∧
      channel_brightness (max77843_rgb_set_state s n b st) n = channel_brightness s n) ∧
    (∃ t, max77843_rgb_reset (some ()) s = some t ∧ t.io_count = s.io_count + 7) ∧
    (∃ t, store_max77843_rgb_pattern now s PATTERN_OFF = some t ∧
      t.io_count = s.io_count + 7) := by
  refine ⟨?_, (set_state_count s n b st hn).1, ?_, reset_count s, ?_⟩
  · intro h reg v m
    simp [max77843_write_reg, max77843_update_reg, h]
  · intro h1 h2
    have hne : MAX77843_RGBLED_REG_LED0BRT + n ≠ MAX77843_RGBLED_REG_LEDEN := by
      unfold MAX77843_RGBLED_REG_LED0BRT MAX77843_RGBLED_REG_LEDEN; omega
    have hset : max77843_rgb_set s n (scale_brightness s n b)
        = s.withRegs s.regs (s.io_count + 1) := by
      simp only [max77843_rgb_set, max77843_rgb_number, hn, if_true, LED_OFF]
      split_ifs with hz hw
      · exact (update_reg_fail s h1 _ _ _).1
      · exact (write_reg_fail s h1 _ _).1
      · exact absurd (write_reg_fail s h1 _ _).2 hw
    have e : max77843_rgb_set_state s n b st = s.withRegs
        (Function.update s.regs MAX77843_RGBLED_REG_LEDEN
          (update_bits (s.regs MAX77843_RGBLED_REG_LEDEN) ((st <<< (2 * n)) % U32)
            (3 <<< (2 * n)))) (s.io_count + 1 + 1) := by
      simp only [max77843_rgb_set_state, max77843_rgb_number, hn, if_true, hset]
      exact update_reg_succ (s.withRegs s.regs (s.io_count + 1)) h2 _ _ _
    rw [e]
    constructor
    · simp only [channel_state, withRegs_regs, Function.update_same,
        Nat.mod_eq_of_lt (update_bits_lt _ _ _)]
      rw [enable_field_set st n n _ hst hn hn, if_pos rfl]
    · simp only [channel_brightness, withRegs_regs, Function.update_noteq hne]
  · obtain ⟨t, e, hc⟩ := reset_count { s with GBLdev := some () }
    refine ⟨t, ?_, hc⟩
    simp only [store_max77843_rgb_pattern, e, if_true]

/-- Witness of the amended C12: with the first access failing, the reset still
issues 7 accesses. -/
theorem io_failure_does_not_abort_witness :
    ∃ t, max77843_rgb_reset (some ()) (State.init (fun _ => 0xFF) (fun k => k == 0)) = some t ∧
      t.io_count = 0 + 7 :=
  (io_failure_does_not_abort ⟨10, 0⟩ (State.init (fun _ => 0xFF) (fun k => k == 0))
    RED 20 LED_ALWAYS_ON (by decide) (by decide)).2.2.2.1

/-- C11, evaluation at the failing inputs: `store_led_r` with 256 leaves Red
always on with brightness register 0, and Charging with current 200 and Red
ratio 150 writes `300 mod 256 = 44`; the saturated value would be 255 in both
cases. -/
theorem brightness_wraps_not_saturates :
    (channel_state (store_led_r (State.init (fun _ => 0xFF) (fun _ => false)) (some 256) 3).1
        RED,
      channel_brightness (store_led_r (State.init (fun _ => 0xFF) (fun _ => false))
        (some 256) 3).1 RED,
      scale_brightness (State.init (fun _ => 0xFF) (fun _ => false)) RED 256)
      = (LED_ALWAYS_ON, 0, 256) ∧
    (store_max77843_rgb_pattern ⟨10, 0⟩
      { State.init (fun _ => 0) (fun _ => false) with
        normal_powermode_current := 200, brightness_ratio_r := 150 } CHARGING).map
      (fun t => (channel_state t RED, channel_brightness t RED,
        scale_brightness t RED 200)) = some (LED_ALWAYS_ON, 44, 300) := by
  decide

/-- C16, evaluation at the failing input: with the low-power flag set
(`low_powermode_current` 5, `normal_powermode_current` 20) the raw blink handler
scales 0xFF0000 to 20 and derates 0xFFFFFF to (6,6,6) against a ceiling of 20,
where the low current gives 5 and (1,1,1); the pattern handler in the same state
uses 5. -/
theorem raw_blink_ignores_low_power :
    (store_max77843_rgb_blink
      { State.init (fun _ => 0) (fun _ => false) with led_lowpower_mode := 1 }
      0xFF0000 500 500).map
      (fun t => (t.led_lowpower_mode, t.led_dynamic_current, channel_brightness t RED))
      = some (1, 20, 20) ∧
    limit_current 255 5 = 5 ∧
    (store_max77843_rgb_blink
      { State.init (fun _ => 0) (fun _ => false) with led_lowpower_mode := 1 }
      0xFFFFFF 500 500).map
      (fun t => (channel_brightness t RED, channel_brightness t GREEN,
        channel_brightness t BLUE, led_max_br t)) = some (6, 6, 6, 20) ∧
    derate { State.init (fun _ => 0) (fun _ => false) with normal_powermode_current := 5 }
      5 5 5 = (1, 1, 1) ∧
    (store_max77843_rgb_pattern ⟨10, 0⟩
      { State.init (fun _ => 0) (fun _ => false) with led_lowpower_mode := 1 } CHARGING).map
      (fun t => (t.led_dynamic_current, channel_brightness t RED)) = some (5, 5) := by
  decide

/-- C20, evaluation at the failing input: from the initial state (no handle
recorded) the commands always-disable 1, block start 1, block stop 2 queue the
delayed work with `GBLdev` still `NULL`; `check_led_timer` then resets through
the `NULL` handle and faults, while on the time-window path, with the same
missing handle, `check_restrictions` returns Blocked without any register
access. -/
theorem check_led_timer_null_handle :
    (run (State.init (fun _ => 0) (fun _ => false))
      [(⟨10, 0⟩, 2, .SetAlwaysDisable (some 1)), (⟨10, 0⟩, 2, .SetBlockStart (some 1)),
        (⟨10, 0⟩, 2, .SetBlockStop (some 2))]).map
      (fun t => (t.GBLdev, t.work_pending, t.led_always_disable)) = some (none, true, 1) ∧
    ((run (State.init (fun _ => 0) (fun _ => false))
      [(⟨10, 0⟩, 2, .SetAlwaysDisable (some 1)), (⟨10, 0⟩, 2, .SetBlockStart (some 1)),
        (⟨10, 0⟩, 2, .SetBlockStop (some 2))]).bind (check_led_timer ⟨10, 0⟩)).isSome
      = false ∧
    (check_restrictions ⟨10, 0⟩
      { State.init (fun _ => 0) (fun _ => false) with led_always_disable := 1 }).isSome
      = false ∧
    (check_restrictions ⟨10, 0⟩
      { State.init (fun _ => 0) (fun _ => false) with
        led_block_leds_time_start := 0, led_block_leds_time_stop := 23 }).map
      (fun p => (p.1, p.2.io_count)) = some (false, 0) := by
  decide

end Max77843
